import Mathlib

/-!
# Verification of the bnb_sniper trade-lifecycle engine

Shallow embedding, in Lean 4, of the core trade-lifecycle code of the
`bnb_sniper` repository:

* `repositories/action_repository.py`  — approval ledger (`acciones` table)
* `repositories/history_repository.py` — trade ledger (`history` table)
* `repositories/monitor_repository.py` — position snapshot / history link
* `repositories/meta_repository.py`    — key/value store (first-buy fuse)
* `services/web3_service.py`           — quotes, gas fields, tx builders
* `controllers/autobuy_controller.py`  — buy pipeline
* `controllers/autosell_controller.py` — sell finalization
* `orchestrators/monitor_orchestrator.py` — exit policy (trailing / stop-loss)

Numbers are modelled by `ℚ` (exact rational arithmetic).  Python `float`
arithmetic is additionally modelled, where a claim is sensitive to IEEE-754
rounding, by the function `fl64` below: every Python arithmetic operation
rounds its exact rational result to the nearest binary64 value (ties to
even); `fl64` implements exactly that rounding for the normal range.
Database tables are modelled as association lists, RPC results as explicit
oracle records, and Python exceptions as `Except`.
-/

/-- The rational value of an integer, written `mkRat n 1` so that concrete
evaluations reduce without the coercion tower; `qOfInt_eq` identifies it
with the ordinary cast. -/
def qOfInt (n : ℤ) : ℚ := mkRat n 1

/-- The rational value of a natural number (see `qOfInt`). -/
def qOfNat (n : ℕ) : ℚ := mkRat (Int.ofNat n) 1

/-- Python `int(q)`: truncation of a rational toward zero. -/
def pyTrunc (q : ℚ) : ℤ :=
  if q < 0 then -(Int.floor (-q)) else Int.floor q

/-- Round a rational to the nearest integer, ties to even
(IEEE-754 default rounding of the integer significand). -/
def roundHalfEvenZ (x : ℚ) : ℤ :=
  let n : ℤ := Int.floor x
  let f : ℚ := x - qOfInt n
  if f < 1/2 then n
  else if 1/2 < f then n + 1
  else if 2 ∣ n then n else n + 1

/-- Integer power of two as a rational, for possibly negative exponents. -/
def pow2z (z : ℤ) : ℚ :=
  if 0 ≤ z then qOfNat (2 ^ z.toNat) else 1 / qOfNat (2 ^ (-z).toNat)

/-- Fuel-driven search: repeatedly halve `q` (assumed `1 ≤ q`) until it drops
below `2`, counting the halvings onto `acc`.  Computes `⌊log₂ q⌋ + acc`. -/
def log2floorAuxDown : ℕ → ℚ → ℤ → ℤ
  | 0, _, acc => acc
  | fuel + 1, q, acc => if q < 2 then acc else log2floorAuxDown fuel (q / 2) (acc + 1)

/-- Fuel-driven search: repeatedly double `q` (assumed `0 < q < 1`) until it
reaches `1`, counting the doublings negatively onto `acc`. -/
def log2floorAuxUp : ℕ → ℚ → ℤ → ℤ
  | 0, _, acc => acc
  | fuel + 1, q, acc => if 1 ≤ q then acc else log2floorAuxUp fuel (q * 2) (acc - 1)

/-- `⌊log₂ q⌋` for a positive rational `q`, by bounded search (the fuel bound
4200 covers every magnitude a binary64 value can take). -/
def log2floorQ (q : ℚ) : ℤ :=
  if 1 ≤ q then log2floorAuxDown 4200 q 0 else log2floorAuxUp 4200 q 0

/-- Binary64 rounding of a positive rational: scale into the 53-bit
significand range for its binade, round the significand to nearest (ties to
even), and scale back.  Exponent overflow/underflow (|q| outside the normal
binary64 range) is not modelled; every value in this development is well
inside the normal range. -/
def fl64Pos (q : ℚ) : ℚ :=
  let e : ℤ := log2floorQ q
  qOfInt (roundHalfEvenZ (q * pow2z (52 - e))) * pow2z (e - 52)

/-- Binary64 (Python `float`) round-to-nearest-even of a rational. -/
def fl64 (q : ℚ) : ℚ :=
  if q = 0 then 0 else if q < 0 then -fl64Pos (-q) else fl64Pos q

/-- The literal `1e-18` used throughout the source as a division guard. -/
def EPS18 : ℚ := 1 / 10 ^ 18

-- ======================================================================
-- Association-list helpers (model of keyed SQLite tables)
-- ======================================================================

/-- SQL `INSERT ... ON CONFLICT(key) DO UPDATE` (upsert): replace the row if
the key is present, otherwise append it. -/
def alistSet {κ α : Type} [DecidableEq κ] (s : List (κ × α)) (k : κ) (v : α) :
    List (κ × α) :=
  match s with
  | [] => [(k, v)]
  | (k', v') :: rest =>
      if k' = k then (k, v) :: rest else (k', v') :: alistSet rest k v

/-- SQL `UPDATE ... WHERE key = ?`: mutate the row if present, otherwise do
nothing (an UPDATE on an absent key affects zero rows). -/
def alistUpdate {κ α : Type} [DecidableEq κ] (s : List (κ × α)) (k : κ) (f : α → α) :
    List (κ × α) :=
  match s with
  | [] => []
  | (k', v') :: rest =>
      if k' = k then (k', f v') :: rest else (k', v') :: alistUpdate rest k f

-- ======================================================================
-- ActionRepository  (repositories/action_repository.py, table `acciones`)
-- ======================================================================

/-- A row of the `acciones` table: `pair_address` is the key (kept outside),
plus `tipo`, `estado`, `timestamp`, nullable `notified_at`. -/
structure Accion where
  tipo : String
  estado : String
  timestamp : ℕ
  notified_at : Option ℕ
deriving Repr, DecidableEq

/-- The `acciones` table, keyed by `pair_address`. -/
abbrev ActionStore : Type := List (String × Accion)

/-- `ActionRepository.registrar_accion`: upsert the pair's row with
`estado = 'pendiente'`, a fresh timestamp and `notified_at = NULL`
(`INSERT ... ON CONFLICT(pair_address) DO UPDATE SET tipo, estado='pendiente',
timestamp, notified_at=NULL`). -/
def ActionRepository.registrar_accion (now : ℕ) (pair_address tipo : String)
    (s : ActionStore) : ActionStore :=
  alistSet s pair_address
    { tipo := tipo, estado := "pendiente", timestamp := now, notified_at := none }

/-- `ActionRepository.autorizar_accion`:
`UPDATE acciones SET estado="aprobada" WHERE pair_address=?` — unconditional
on the current state; a no-op when the row does not exist. -/
def ActionRepository.autorizar_accion (pair_address : String)
    (s : ActionStore) : ActionStore :=
  alistUpdate s pair_address (fun a => { a with estado := "aprobada" })

/-- `ActionRepository.cancelar_accion`:
`UPDATE acciones SET estado="cancelada" WHERE pair_address=?` — unconditional
on the current state; a no-op when the row does not exist. -/
def ActionRepository.cancelar_accion (pair_address : String)
    (s : ActionStore) : ActionStore :=
  alistUpdate s pair_address (fun a => { a with estado := "cancelada" })

/-- `ActionRepository.obtener_estado`: `SELECT estado ... WHERE pair_address=?`,
`None` when the row does not exist. -/
def ActionRepository.obtener_estado (pair_address : String) (s : ActionStore) :
    Option String :=
  (s.lookup pair_address).map (·.estado)

/-- `ActionRepository.obtener_tipo`. -/
def ActionRepository.obtener_tipo (pair_address : String) (s : ActionStore) :
    Option String :=
  (s.lookup pair_address).map (·.tipo)

/-- `ActionRepository.marcar_notificado`:
`UPDATE acciones SET notified_at=strftime(...) WHERE pair_address=?`. -/
def ActionRepository.marcar_notificado (now : ℕ) (pair_address : String)
    (s : ActionStore) : ActionStore :=
  alistUpdate s pair_address (fun a => { a with notified_at := some now })

-- ======================================================================
-- MetaRepository  (repositories/meta_repository.py, table `meta`)
-- ======================================================================

/-- The `meta` key/value table. -/
abbrev MetaStore : Type := List (String × String)

/-- `MetaRepository.get` with a default value. -/
def MetaRepository.get (m : MetaStore) (k : String) (default : String) : String :=
  (m.lookup k).getD default

/-- `MetaRepository.set`: `INSERT OR REPLACE INTO meta (k, v)`. -/
def MetaRepository.set (m : MetaStore) (k v : String) : MetaStore :=
  alistSet m k v

-- ======================================================================
-- HistoryRepository  (repositories/history_repository.py, table `history`)
-- ======================================================================

/-- A row of the `history` table (the trade ledger): one row per buy→sell
cycle.  All prices are unit prices in BNB; nullable SQL columns are
`Option`. -/
structure HistoryEntry where
  pair_address : String
  token_address : String
  symbol : Option String
  name : Option String
  buy_entry_price : Option ℚ
  buy_price_with_fees : Option ℚ
  buy_real_price : Option ℚ
  buy_amount : Option ℚ
  buy_date : Option ℕ
  sell_entry_price : Option ℚ
  sell_price_with_fees : Option ℚ
  sell_real_price : Option ℚ
  sell_amount : Option ℚ
  sell_date : Option ℕ
  pnl : Option ℚ
  bnb_amount : Option ℚ
deriving Repr, DecidableEq

/-- The `history` table with its `AUTOINCREMENT` id counter (SQLite row ids
start at 1). -/
structure HistoryDB where
  rows : List (ℕ × HistoryEntry)
  next_id : ℕ
deriving Repr, DecidableEq

/-- `HistoryRepository.create_buy`: insert a buy-leg-only row (sell fields
and real buy fields NULL) and return its fresh id. -/
def HistoryRepository.create_buy (pair_address token_address : String)
    (symbol name : Option String) (buy_entry_price buy_price_with_fees : Option ℚ)
    (buy_date_ts : ℕ) (db : HistoryDB) : ℕ × HistoryDB :=
  let id := db.next_id
  (id,
   { rows := db.rows ++ [(id,
       { pair_address := pair_address, token_address := token_address
         symbol := symbol, name := name
         buy_entry_price := buy_entry_price
         buy_price_with_fees := buy_price_with_fees
         buy_real_price := none, buy_amount := none, buy_date := some buy_date_ts
         sell_entry_price := none, sell_price_with_fees := none
         sell_real_price := none, sell_amount := none, sell_date := none
         pnl := none, bnb_amount := none })]
     next_id := db.next_id + 1 })

/-- `HistoryRepository.get_by_id`. -/
def HistoryRepository.get_by_id (history_id : ℕ) (db : HistoryDB) :
    Option HistoryEntry :=
  db.rows.lookup history_id

/-- `HistoryRepository.set_buy_final_result`: `UPDATE history SET
buy_real_price = ?, buy_amount = ? WHERE id = ?`. -/
def HistoryRepository.set_buy_final_result (history_id : ℕ)
    (buy_real_price buy_amount : ℚ) (db : HistoryDB) : HistoryDB :=
  { db with rows := alistUpdate db.rows history_id (fun h =>
      { h with buy_real_price := some buy_real_price
               buy_amount := some buy_amount }) }

/-- `HistoryRepository.finalize_sell`: write all sell-leg columns plus `pnl`
and `bnb_amount` (`sell_date = COALESCE(?, strftime('%s','now'))`). -/
def HistoryRepository.finalize_sell (history_id : ℕ)
    (sell_entry_price sell_price_with_fees : Option ℚ)
    (sell_real_price sell_amount pnl bnb_amount : ℚ)
    (sell_date_ts : Option ℕ) (now : ℕ) (db : HistoryDB) : HistoryDB :=
  { db with rows := alistUpdate db.rows history_id (fun h =>
      { h with sell_entry_price := sell_entry_price
               sell_price_with_fees := sell_price_with_fees
               sell_real_price := some sell_real_price
               sell_amount := some sell_amount
               sell_date := some (sell_date_ts.getD now)
               pnl := some pnl
               bnb_amount := some bnb_amount }) }

-- ======================================================================
-- MonitorRepository  (repositories/monitor_repository.py, `monitor_state`)
-- ======================================================================

/-- The `history_id` column of the `monitor_state` table, keyed by
`pair_address` (the only column the trade lifecycle reads back; a present
row may hold a NULL id). -/
abbrev MonitorStore : Type := List (String × Option ℕ)

/-- `MonitorRepository.set_history_id`: upsert the pair's `history_id`. -/
def MonitorRepository.set_history_id (pair_address : String) (history_id : ℕ)
    (s : MonitorStore) : MonitorStore :=
  alistSet s pair_address (some history_id)

/-- `MonitorRepository.get_history_id`: `None` when the row is absent or the
column is NULL. -/
def MonitorRepository.get_history_id (pair_address : String) (s : MonitorStore) :
    Option ℕ :=
  match s.lookup pair_address with
  | none => none
  | some o => o

/-- `MonitorRepository.clear_history_id`: `UPDATE monitor_state SET
history_id = NULL WHERE pair_address = ?`. -/
def MonitorRepository.clear_history_id (pair_address : String)
    (s : MonitorStore) : MonitorStore :=
  alistUpdate s pair_address (fun _ => none)

-- ======================================================================
-- Sell finalization  (autobuy_controller.finalize_sell /
--                     autosell_controller.record_sell_result)
-- ======================================================================

/-- Result dict of the sell-finalization entry points:
`{"ok": ..., "reason": ..., "history_id": ..., "pnl": ..., "bnb_amount": ...}`. -/
structure SellCloseResult where
  ok : Bool
  reason : Option String
  history_id : Option ℕ
  pnl : Option ℚ
  bnb_amount : Option ℚ
deriving Repr, DecidableEq

/-- `AutoBuyController.finalize_sell`: looks up the pair's linked history id
(Python `if not history_id` also treats a 0 id as missing), requires the
entry to exist with a non-null `buy_real_price`, computes
`pnl = ((sell_real − buy_real)/max(buy_real, 1e-18)) × sell_amount × 100`,
writes the sell columns and clears the monitor link.  On any failed guard it
returns `ok = False` with a reason and performs no writes. -/
def AutoBuyController.finalize_sell (now : ℕ) (pair_address : String)
    (sell_entry_price_bnb sell_price_with_fees_bnb : Option ℚ)
    (sell_real_price_bnb sell_amount_tokens bnb_amount : ℚ)
    (ms : MonitorStore) (hs : HistoryDB) :
    SellCloseResult × MonitorStore × HistoryDB :=
  match MonitorRepository.get_history_id pair_address ms with
  | none =>
      ({ ok := false, reason := some "history_id no encontrado en monitor"
         history_id := none, pnl := none, bnb_amount := none }, ms, hs)
  | some history_id =>
      if history_id = 0 then
        ({ ok := false, reason := some "history_id no encontrado en monitor"
           history_id := none, pnl := none, bnb_amount := none }, ms, hs)
      else
        match (HistoryRepository.get_by_id history_id hs).bind (·.buy_real_price) with
        | none =>
            ({ ok := false, reason := some "compra real no registrada todavía"
               history_id := none, pnl := none, bnb_amount := none }, ms, hs)
        | some buy_real_price_bnb =>
            let denom := max buy_real_price_bnb EPS18
            let pnl_percent :=
              ((sell_real_price_bnb - buy_real_price_bnb) / denom)
                * sell_amount_tokens * 100
            let hs' := HistoryRepository.finalize_sell history_id
              sell_entry_price_bnb sell_price_with_fees_bnb
              sell_real_price_bnb sell_amount_tokens pnl_percent bnb_amount
              none now hs
            let ms' := MonitorRepository.clear_history_id pair_address ms
            ({ ok := true, reason := none, history_id := some history_id
               pnl := some pnl_percent, bnb_amount := some bnb_amount }, ms', hs')

/-- `AutoSellController.record_sell_result`: identical guard sequence and
writes as `AutoBuyController.finalize_sell` (the source duplicates the
body). -/
def AutoSellController.record_sell_result (now : ℕ) (pair_address : String)
    (sell_entry_price_bnb sell_price_with_fees_bnb : Option ℚ)
    (sell_real_price_bnb sell_amount_tokens bnb_amount : ℚ)
    (ms : MonitorStore) (hs : HistoryDB) :
    SellCloseResult × MonitorStore × HistoryDB :=
  match MonitorRepository.get_history_id pair_address ms with
  | none =>
      ({ ok := false, reason := some "history_id no encontrado en monitor"
         history_id := none, pnl := none, bnb_amount := none }, ms, hs)
  | some history_id =>
      if history_id = 0 then
        ({ ok := false, reason := some "history_id no encontrado en monitor"
           history_id := none, pnl := none, bnb_amount := none }, ms, hs)
      else
        match (HistoryRepository.get_by_id history_id hs).bind (·.buy_real_price) with
        | none =>
            ({ ok := false, reason := some "compra real no registrada todavía"
               history_id := none, pnl := none, bnb_amount := none }, ms, hs)
        | some buy_real_price_bnb =>
            let denom := max buy_real_price_bnb EPS18
            let pnl_percent :=
              ((sell_real_price_bnb - buy_real_price_bnb) / denom)
                * sell_amount_tokens * 100
            let hs' := HistoryRepository.finalize_sell history_id
              sell_entry_price_bnb sell_price_with_fees_bnb
              sell_real_price_bnb sell_amount_tokens pnl_percent bnb_amount
              none now hs
            let ms' := MonitorRepository.clear_history_id pair_address ms
            ({ ok := true, reason := none, history_id := some history_id
               pnl := some pnl_percent, bnb_amount := some bnb_amount }, ms', hs')

-- ======================================================================
-- Exit policy  (monitor_orchestrator._init_trailing / _update_trailing)
-- ======================================================================

/-- Exit-policy configuration, from environment variables
`TAKE_PROFIT_PCT`, `TRAILING_GAP_PCT`, `STOP_LOSS_PCT`. -/
structure TrailCfg where
  take_profit_pct : ℚ
  trailing_gap_pct : ℚ
  stop_loss_pct : ℚ
deriving Repr, DecidableEq

/-- The per-pair in-memory trailing state `self._trail[pair]`. -/
structure TrailState where
  armed : Bool
  peak : ℚ
  trailing_stop : ℚ
  stop_loss : ℚ
deriving Repr, DecidableEq

/-- The dict `{"action": ..., "reason": ...}` returned by
`_update_trailing`. -/
structure Decision where
  action : String
  reason : String
deriving Repr, DecidableEq

/-- `MonitorOrchestrator._init_trailing`.  The parameter `fl : ℚ → ℚ` rounds
the exact result of each Python arithmetic operation: `fl := id` gives the
exact-arithmetic model, `fl := fl64` the binary64 (Python float) model. -/
def MonitorOrchestrator.init_trailing (fl : ℚ → ℚ) (cfg : TrailCfg)
    (buy_real : ℚ) : TrailState :=
  { armed := decide (cfg.take_profit_pct ≤ 0)
    peak := buy_real
    trailing_stop := fl (buy_real * fl (1 - fl (cfg.trailing_gap_pct / 100)))
    stop_loss := fl (buy_real * fl (1 - fl (cfg.stop_loss_pct / 100))) }

/-- `MonitorOrchestrator._update_trailing`: one exit-policy step.  A missing
state (`st? = none`, the first tick) is initialized from `buy_real` first,
exactly as the source's `if not st:` branch does.  Returns the decision dict
and the (possibly mutated) trailing state. -/
def MonitorOrchestrator.update_trailing (fl : ℚ → ℚ) (cfg : TrailCfg)
    (buy_real current : ℚ) (st? : Option TrailState) : Decision × TrailState :=
  let st := st?.getD (MonitorOrchestrator.init_trailing fl cfg buy_real)
  if current ≤ st.stop_loss then
    ({ action := "SELL", reason := "STOP_LOSS" }, st)
  else if st.armed = false then
    let arm_level := fl (buy_real * fl (1 + fl (cfg.take_profit_pct / 100)))
    if arm_level ≤ current then
      ({ action := "HOLD", reason := "ARMED_TRAILING" },
       { st with armed := true, peak := current
                 trailing_stop := fl (current * fl (1 - fl (cfg.trailing_gap_pct / 100))) })
    else
      ({ action := "HOLD", reason := "NONE" }, st)
  else
    if st.peak < current then
      ({ action := "HOLD", reason := "NEW_PEAK" },
       { st with peak := current
                 trailing_stop := fl (current * fl (1 - fl (cfg.trailing_gap_pct / 100))) })
    else if current ≤ st.trailing_stop then
      ({ action := "SELL", reason := "TRAILING_HIT" }, st)
    else
      ({ action := "HOLD", reason := "NONE" }, st)

-- ======================================================================
-- Aggregate close PnL  (monitor_orchestrator._monitor_worker, close step)
-- ======================================================================

/-- The aggregate PnL the monitor worker writes when the second partial sell
closes the cycle (lines 303–304): `total_tokens`/`total_bnb` are the
accumulated `sold_tokens`/`bnb_received` over both fills, and
`sell_real_price_agg = total_bnb / total_tokens`. -/
def MonitorOrchestrator.close_pnl_total (buy_real total_tokens total_bnb : ℚ) : ℚ :=
  ((total_bnb / total_tokens - buy_real) / max buy_real EPS18) * total_tokens * 100

/-- The `bnb_amount` the monitor worker writes on close (line 305). -/
def MonitorOrchestrator.close_bnb_amount (buy_real total_tokens total_bnb : ℚ) : ℚ :=
  (total_bnb / total_tokens - buy_real) * total_tokens

/-- Modelled from the spec: the per-fill PnL of one partial fill,
`((proceeds/units − buyReal)/buyReal) × units × 100` — the claim's
"weighted combination" is the sum of this over the fills.  This definition
follows the spec's words and is compared against the source-derived
`MonitorOrchestrator.close_pnl_total`. -/
def specPerFillPnl (buy_real units proceeds : ℚ) : ℚ :=
  ((proceeds / units - buy_real) / buy_real) * units * 100

-- ======================================================================
-- Web3Service  (services/web3_service.py)
-- ======================================================================

/-- The gas-fee strategy detected once per client (`_detect_gas_mode`):
`legacy` (flat `gasPrice`) or the EIP-1559 fee market. -/
inductive GasMode where
  | legacy
  | eip1559
deriving Repr, DecidableEq

/-- Environment-derived Web3Service configuration (`GAS_PRICE_WEI`,
`PRIORITY_FEE_GWEI` already converted to wei, `MAX_FEE_MULTIPLIER`,
`GAS_LIMIT_MULTIPLIER`, `DEFAULT_SWAP_GAS_LIMIT`, `DRY_RUN`,
`SKIP_GAS_EST_IN_DRY`, `DEFAULT_SLIPPAGE`, and whether a `PRIVATE_KEY` /
account is configured). -/
structure W3Env where
  gas_price_wei_override : ℕ
  priority_fee_wei : ℕ
  max_fee_multiplier : ℚ
  gas_limit_multiplier : ℚ
  default_swap_gas_limit : ℕ
  dry_run : Bool
  skip_gas_est_in_dry : Bool
  default_slippage : ℚ
  has_account : Bool

/-- A built transaction dict.  Fee and gas fields are `Option` because the
source adds and strips them dynamically; `value` is the native-asset amount
attached. -/
structure Tx where
  tx_from : String
  value : ℕ
  nonce : ℕ
  chainId : ℕ
  txType : Option ℕ
  gasPrice : Option ℕ
  maxFeePerGas : Option ℕ
  maxPriorityFeePerGas : Option ℕ
  accessList : Option Unit
  gas : Option ℕ
deriving Repr, DecidableEq

/-- Oracle for everything the service reads from the chain (each RPC call
either yields a value or raises, i.e. `Except Unit`).  `get_pair_nonzero`
is the factory's `getPair ≠ 0` check; `prefill_*` are whatever fee fields
web3.py's `build_transaction` itself filled into the base dict (stripped
again by `_apply_gas_fields`). -/
structure ChainOracle where
  gas_mode : GasMode
  latest_base_fee : Except Unit (Option ℕ)
  gas_price_rpc : Except Unit ℕ
  max_priority_fee_rpc : Except Unit ℕ
  factory_available : Bool
  get_pair_nonzero : String → String → Except Unit Bool
  router_amounts_out : ℤ → List String → Except Unit (List ℤ)
  estimate_gas : Tx → Except Unit ℕ
  estimate_gas_relaxed : Except Unit ℕ
  nonce : ℕ
  chain_id : ℕ
  token_decimals : String → ℕ
  prefill_gasPrice : Option ℕ
  prefill_maxFeePerGas : Option ℕ
  prefill_maxPriorityFeePerGas : Option ℕ

/-- `Web3Service._legacy_gas_price`: the operator override when positive,
else the node's gas price, else `None` on RPC failure. -/
def Web3Service.legacy_gas_price (env : W3Env) (o : ChainOracle) : Option ℕ :=
  if 0 < env.gas_price_wei_override then some env.gas_price_wei_override
  else
    match o.gas_price_rpc with
    | .ok v => some v
    | .error _ => none

/-- `Web3Service._apply_gas_fields`: strip `gasPrice`,
`maxFeePerGas`, `maxPriorityFeePerGas` and `accessList`, then apply only the
active mode's fields.  In 1559 mode the base fee falls back to the node gas
price when the block lacks one (Python `or` also treats a 0 base fee as
missing) and that fallback's failure propagates; the priority fee falls back
to the configured constant.  In legacy mode `gasPrice` is set only when
truthy (`if gas_price:`). -/
def Web3Service.apply_gas_fields (env : W3Env) (o : ChainOracle) (tx : Tx) :
    Except Unit Tx :=
  let tx := { tx with gasPrice := none, maxFeePerGas := none
                      maxPriorityFeePerGas := none, accessList := none }
  match o.gas_mode with
  | .eip1559 => do
      let base_fee : ℕ ←
        match o.latest_base_fee with
        | .ok (some bf) => if bf = 0 then o.gas_price_rpc else pure bf
        | .ok none => o.gas_price_rpc
        | .error _ => o.gas_price_rpc
      let priority : ℕ :=
        match o.max_priority_fee_rpc with
        | .ok p => p
        | .error _ => env.priority_fee_wei
      let max_fee : ℕ :=
        (pyTrunc (qOfNat base_fee * env.max_fee_multiplier + qOfNat priority)).toNat
      pure { tx with txType := some 2
                     maxPriorityFeePerGas := some priority
                     maxFeePerGas := some max_fee }
  | .legacy =>
      let tx := { tx with txType := some 0 }
      match Web3Service.legacy_gas_price env o with
      | some gp => pure (if gp = 0 then tx else { tx with gasPrice := some gp })
      | none => pure tx

/-- `Web3Service._pair_exists`: `True` when no factory contract is available,
else the factory's answer, with any RPC exception mapped to `False`. -/
def Web3Service.pair_exists (o : ChainOracle) (token_a token_b : String) : Bool :=
  if o.factory_available = false then true
  else
    match o.get_pair_nonzero token_a token_b with
    | .ok b => b
    | .error _ => false

/-- Adjacent-pair scan of `_path_pairs_exist`'s loop. -/
def Web3Service.adjacent_pairs_ok (o : ChainOracle) : List String → Bool
  | a :: b :: rest => Web3Service.pair_exists o a b && Web3Service.adjacent_pairs_ok o (b :: rest)
  | _ => true

/-- `Web3Service._path_pairs_exist`: `False` for paths shorter than 2, else
every adjacent pair must exist. -/
def Web3Service.path_pairs_exist (o : ChainOracle) (path : List String) : Bool :=
  if path.length < 2 then false else Web3Service.adjacent_pairs_ok o path

/-- `Web3Service.get_amounts_out`: all-zero list when `amount_in ≤ 0`, when
some pair on the path is missing, or when the router simulation raises
(`ContractLogicError` or any other exception); otherwise the router's
amounts. -/
def Web3Service.get_amounts_out (o : ChainOracle) (amount_in : ℤ)
    (path : List String) : List ℤ :=
  if amount_in ≤ 0 then List.replicate path.length 0
  else if Web3Service.path_pairs_exist o path = false then List.replicate path.length 0
  else
    match o.router_amounts_out amount_in path with
    | .ok amounts => amounts
    | .error _ => List.replicate path.length 0

/-- `Web3Service.get_amount_out_min`: 0 when the amounts list is empty or its
last element is non-positive, else the slippage-discounted last amount,
truncated as Python `int(...)` does. -/
def Web3Service.get_amount_out_min (env : W3Env) (o : ChainOracle)
    (amount_in : ℤ) (path : List String) (slippage_percent : Option ℚ) : ℤ :=
  let slippage := slippage_percent.getD env.default_slippage
  let amts := Web3Service.get_amounts_out o amount_in path
  match amts.getLast? with
  | none => 0
  | some last => if last ≤ 0 then 0 else pyTrunc (qOfInt last * (1 - slippage / 100))

/-- Shared tail of the three builders: set the final gas limit.  In dry-run
(with `SKIP_GAS_EST_IN_DRY`) the default swap gas limit is used without
estimating. -/
def Web3Service.with_gas_limit (env : W3Env) (tx : Tx) (estimated : ℕ) : Tx :=
  { tx with gas := some (pyTrunc (qOfNat estimated * env.gas_limit_multiplier)).toNat }

/-- `Web3Service.build_swap_exact_eth_for_tokens`: raises without an account
or when the WBNB→token pool is missing; builds the base tx (web3.py may
prefill fee fields, which `_apply_gas_fields` strips), applies exactly one
fee model, then sets the gas limit — skipping estimation in dry-run, and on
a failed estimate retrying once against a relaxed (zero `amountOutMin`)
transaction whose result is only used for the limit. -/
def Web3Service.build_swap_exact_eth_for_tokens (env : W3Env) (o : ChainOracle)
    (amount_in_wei : ℕ) (amount_out_min : ℤ) (token_address wbnb account : String) :
    Except Unit Tx :=
  if env.has_account = false then .error ()
  else if Web3Service.path_pairs_exist o [wbnb, token_address] = false then .error ()
  else do
    let base : Tx :=
      { tx_from := account, value := amount_in_wei
        nonce := o.nonce, chainId := o.chain_id
        txType := none
        gasPrice := o.prefill_gasPrice
        maxFeePerGas := o.prefill_maxFeePerGas
        maxPriorityFeePerGas := o.prefill_maxPriorityFeePerGas
        accessList := none, gas := none }
    let tx ← Web3Service.apply_gas_fields env o base
    if env.dry_run && env.skip_gas_est_in_dry then
      pure { tx with gas := some env.default_swap_gas_limit }
    else
      match o.estimate_gas tx with
      | .ok g => pure (Web3Service.with_gas_limit env tx g)
      | .error _ => do
          let _tx0 ← Web3Service.apply_gas_fields env o base
          match o.estimate_gas_relaxed with
          | .ok g => pure (Web3Service.with_gas_limit env tx g)
          | .error _ => .error ()

/-- `Web3Service.build_approve`: same gas handling, no pool check, no native
value attached, and no relaxed-estimate retry (a failed estimate raises). -/
def Web3Service.build_approve (env : W3Env) (o : ChainOracle)
    (token_address spender account : String) (amount_wei : ℕ) : Except Unit Tx :=
  if env.has_account = false then .error ()
  else do
    let base : Tx :=
      { tx_from := account, value := 0
        nonce := o.nonce, chainId := o.chain_id
        txType := none
        gasPrice := o.prefill_gasPrice
        maxFeePerGas := o.prefill_maxFeePerGas
        maxPriorityFeePerGas := o.prefill_maxPriorityFeePerGas
        accessList := none, gas := none }
    let tx ← Web3Service.apply_gas_fields env o base
    if env.dry_run && env.skip_gas_est_in_dry then
      pure { tx with gas := some env.default_swap_gas_limit }
    else
      match o.estimate_gas tx with
      | .ok g => pure (Web3Service.with_gas_limit env tx g)
      | .error _ => .error ()

/-- `Web3Service.build_swap_exact_tokens_for_eth`: same gas handling, no
pool pre-check, no native value attached, no relaxed-estimate retry. -/
def Web3Service.build_swap_exact_tokens_for_eth (env : W3Env) (o : ChainOracle)
    (token_address : String) (amount_in_tokens_raw : ℕ)
    (amount_out_min_bnb_wei : ℤ) (account : String) : Except Unit Tx :=
  if env.has_account = false then .error ()
  else do
    let base : Tx :=
      { tx_from := account, value := 0
        nonce := o.nonce, chainId := o.chain_id
        txType := none
        gasPrice := o.prefill_gasPrice
        maxFeePerGas := o.prefill_maxFeePerGas
        maxPriorityFeePerGas := o.prefill_maxPriorityFeePerGas
        accessList := none, gas := none }
    let tx ← Web3Service.apply_gas_fields env o base
    if env.dry_run && env.skip_gas_est_in_dry then
      pure { tx with gas := some env.default_swap_gas_limit }
    else
      match o.estimate_gas tx with
      | .ok g => pure (Web3Service.with_gas_limit env tx g)
      | .error _ => .error ()

-- ======================================================================
-- AutoBuyController  (controllers/autobuy_controller.py)
-- ======================================================================

/-- Environment-derived buy-pipeline configuration: `FIRST_REAL_BUY`,
`DRY_RUN`, `TEST_MAX_SPEND_BNB` (already converted to wei),
`PNL_THRESHOLD_PERCENT`, `MAX_FEE_BNB`, `WBNB_ADDRESS` (unset allowed —
the controller reads its own copy, without the service's default). -/
structure BuyEnv where
  first_real_buy : Bool
  dry_run : Bool
  test_max_spend_wei : ℕ
  pnl_threshold_percent : ℚ
  max_fee_bnb : ℚ
  wbnb_address : Option String
deriving Repr, DecidableEq

/-- Database state shared by the buy pipeline: the `meta`, `acciones`,
`history` and `monitor_state` tables. -/
structure BotState where
  meta : MetaStore
  actions : ActionStore
  history : HistoryDB
  monitor : MonitorStore
deriving Repr, DecidableEq

/-- Decidable equality on `Except` results (not provided by the core
library), needed to evaluate controller outcomes on concrete inputs. -/
instance {ε α : Type} [DecidableEq ε] [DecidableEq α] :
    DecidableEq (Except ε α) := fun a b =>
  match a, b with
  | .error a1, .error b1 => decidable_of_iff (a1 = b1) (by simp)
  | .error _, .ok _ => isFalse (by simp)
  | .ok _, .error _ => isFalse (by simp)
  | .ok a1, .ok b1 => decidable_of_iff (a1 = b1) (by simp)

/-- A Python exception escaping a controller entry point. -/
inductive PyErr where
  /-- `TypeError`: `propose_buy` calls `ActionRepository.registrar_accion`
  with keyword arguments `token_address=` and `motivo=` that the method
  signature `registrar_accion(self, pair_address, tipo)` does not accept. -/
  | typeErrorRegistrarKwargs
  /-- An exception propagated out of `Web3Service` (builder/RPC). -/
  | chainError
deriving Repr, DecidableEq

/-- Result dict of the buy entry points. -/
inductive ProposeResult where
  /-- `{"ok": False, "reason": ...}` -/
  | rejected (reason : String)
  /-- `{"ok": True, "mode": "PENDING_USER", "reason": ..., ...}` (present in
  the source text but unreachable: the `registrar_accion` call just before
  it raises `TypeError`). -/
  | pendingUser (reason : String) (pnl_percent fee_bnb_total : ℚ)
  /-- `{"ok": True, "mode": "IMMEDIATE", "history_id": ..., "tx": ...,
  "amount_out_min": ...}` -/
  | immediate (history_id : ℕ) (tx : Tx) (amount_out_min : ℤ)
deriving Repr, DecidableEq

/-- `AutoBuyController._first_buy_already_done`:
`meta.get("first_buy_done", "0") == "1"`. -/
def AutoBuyController.first_buy_already_done (st : BotState) : Bool :=
  MetaRepository.get st.meta "first_buy_done" "0" == "1"

/-- `AutoBuyController._apply_test_cap_wei`: clamp the spend to the test
cap. -/
def AutoBuyController.apply_test_cap_wei (env : BuyEnv) (amount_bnb_wei : ℕ) : ℕ :=
  if env.test_max_spend_wei < amount_bnb_wei then env.test_max_spend_wei
  else amount_bnb_wei

/-- `AutoBuyController._estimate_fee_bnb`: `gas_price_wei * gas_used / 1e18`. -/
def AutoBuyController.estimate_fee_bnb (gas_used gas_price_wei : ℕ) : ℚ :=
  qOfNat (gas_price_wei * gas_used) / 10 ^ 18

/-- `AutoBuyController._compute_pnl_percent`:
`((expected_unit_cost − current_price) / max(current_price, 1e-18)) × 100`. -/
def AutoBuyController.compute_pnl_percent
    (expected_unit_cost_bnb current_price_bnb : ℚ) : ℚ :=
  ((expected_unit_cost_bnb - current_price_bnb) / max current_price_bnb EPS18) * 100

/-- `AutoBuyController._preview_amount_out_min`: 0 when `WBNB_ADDRESS` is
unset, else a quote over the path `[WBNB, token]` with the default
slippage. -/
def AutoBuyController.preview_amount_out_min (env : BuyEnv) (w3env : W3Env)
    (o : ChainOracle) (token_address : String) (amount_bnb_wei : ℕ) : ℤ :=
  match env.wbnb_address with
  | none => 0
  | some wbnb =>
      Web3Service.get_amount_out_min w3env o (amount_bnb_wei : ℤ)
        [wbnb, token_address] none

/-- `AutoBuyController._expected_out_tokens`:
`amount_out_min_raw / 10 ** decimals`. -/
def AutoBuyController.expected_out_tokens (o : ChainOracle)
    (token_address : String) (amount_out_min_raw : ℤ) : ℚ :=
  qOfInt amount_out_min_raw / 10 ^ (o.token_decimals token_address)

/-- `AutoBuyController._start_buy_immediate`: open the trade-ledger row
(estimated fields only) and link it into `monitor_state`. -/
def AutoBuyController.start_buy_immediate (now : ℕ)
    (pair_address token_address : String) (symbol name : Option String)
    (amount_out_min : ℤ) (tx : Tx)
    (buy_entry_price_bnb buy_price_with_fees_bnb : ℚ) (st : BotState) :
    ProposeResult × BotState :=
  let (history_id, hdb') := HistoryRepository.create_buy pair_address
    token_address symbol name (some buy_entry_price_bnb)
    (some buy_price_with_fees_bnb) now st.history
  let ms' := MonitorRepository.set_history_id pair_address history_id st.monitor
  (.immediate history_id tx amount_out_min,
   { st with history := hdb', monitor := ms' })

/-- `AutoBuyController.propose_buy`: the fuse check comes first; then the
spend cap, the quote, the gas-fee estimate from the built transaction
(`tx.get("gas", 0)`, `tx.get("gasPrice", 0)`), the expected unit cost and
PnL; if `pnl < threshold` or `fee > cap` the source calls
`registrar_accion(pair_address=…, tipo="compra", token_address=…, motivo=…)`
— keyword arguments the repository method does not accept — so that branch
raises `TypeError` instead of returning its `PENDING_USER` dict; otherwise
the immediate path opens the ledger entry. -/
def AutoBuyController.propose_buy (env : BuyEnv) (w3env : W3Env)
    (o : ChainOracle) (now : ℕ) (pair_address token_address : String)
    (symbol name : Option String) (amount_bnb_wei : ℕ)
    (price_native_bnb current_price_bnb : ℚ)
    (buy_fee_bnb_per_unit transfer_fee_bnb_per_unit : ℚ)
    (wbnb_service account : String) (st : BotState) :
    Except PyErr (ProposeResult × BotState) :=
  if env.first_real_buy && AutoBuyController.first_buy_already_done st then
    .ok (.rejected "FIRST_BUY_FUSE_BLOCKED", st)
  else
    let amount_bnb_wei := AutoBuyController.apply_test_cap_wei env amount_bnb_wei
    let amount_out_min :=
      AutoBuyController.preview_amount_out_min env w3env o token_address amount_bnb_wei
    if amount_out_min ≤ 0 then .ok (.rejected "amountOutMin inválido", st)
    else
      let expected_out_tokens :=
        AutoBuyController.expected_out_tokens o token_address amount_out_min
      if expected_out_tokens ≤ 0 then
        .ok (.rejected "expected_out_tokens inválido", st)
      else
        match Web3Service.build_swap_exact_eth_for_tokens w3env o
            amount_bnb_wei amount_out_min token_address wbnb_service account with
        | .error _ => .error .chainError
        | .ok tx =>
            let fee_bnb_total :=
              AutoBuyController.estimate_fee_bnb (tx.gas.getD 0) (tx.gasPrice.getD 0)
            let gas_bnb_per_unit := fee_bnb_total / max expected_out_tokens EPS18
            let expected_unit_cost_bnb :=
              price_native_bnb + buy_fee_bnb_per_unit
                + transfer_fee_bnb_per_unit + gas_bnb_per_unit
            let pnl_percent :=
              AutoBuyController.compute_pnl_percent expected_unit_cost_bnb
                current_price_bnb
            if pnl_percent < env.pnl_threshold_percent
                ∨ env.max_fee_bnb < fee_bnb_total then
              .error .typeErrorRegistrarKwargs
            else
              .ok (AutoBuyController.start_buy_immediate now pair_address
                token_address symbol name amount_out_min tx
                price_native_bnb expected_unit_cost_bnb st)

/-- `AutoBuyController.confirm_pending_buy`: fuse check first, then the
action must be in state `aprobada`; the quote and cost are re-derived and
the immediate path executes.  (Unlike `propose_buy` there is no PnL gate
here, and the `registrar_accion` call is absent, so nothing raises.) -/
def AutoBuyController.confirm_pending_buy (env : BuyEnv) (w3env : W3Env)
    (o : ChainOracle) (now : ℕ) (pair_address token_address : String)
    (symbol name : Option String) (amount_bnb_wei : ℕ)
    (price_native_bnb current_price_bnb : ℚ)
    (buy_fee_bnb_per_unit transfer_fee_bnb_per_unit : ℚ)
    (wbnb_service account : String) (st : BotState) :
    Except PyErr (ProposeResult × BotState) :=
  if env.first_real_buy && AutoBuyController.first_buy_already_done st then
    .ok (.rejected "FIRST_BUY_FUSE_BLOCKED", st)
  else
    match ActionRepository.obtener_estado pair_address st.actions with
    | some "aprobada" =>
        let amount_bnb_wei := AutoBuyController.apply_test_cap_wei env amount_bnb_wei
        let amount_out_min :=
          AutoBuyController.preview_amount_out_min env w3env o token_address
            amount_bnb_wei
        if amount_out_min ≤ 0 then
          .ok (.rejected "amountOutMin inválido tras confirmación", st)
        else
          match Web3Service.build_swap_exact_eth_for_tokens w3env o
              amount_bnb_wei amount_out_min token_address wbnb_service account with
          | .error _ => .error .chainError
          | .ok tx =>
              let fee_bnb_total :=
                AutoBuyController.estimate_fee_bnb (tx.gas.getD 0) (tx.gasPrice.getD 0)
              let expected_out_tokens :=
                AutoBuyController.expected_out_tokens o token_address amount_out_min
              let gas_bnb_per_unit := fee_bnb_total / max expected_out_tokens EPS18
              let buy_price_with_fees_bnb :=
                price_native_bnb + buy_fee_bnb_per_unit
                  + transfer_fee_bnb_per_unit + gas_bnb_per_unit
              .ok (AutoBuyController.start_buy_immediate now pair_address
                token_address symbol name amount_out_min tx
                price_native_bnb buy_price_with_fees_bnb st)
    | estado =>
        .ok (.rejected ("acción no aprobada (estado=" ++ toString estado ++ ")"), st)

/-- `AutoBuyController.procesar_token` (DiscoveryController compatibility):
fuse check first, then the spend is the test cap itself (re-clamped), the
token's native price doubles as current price, taxes are zero, and the call
delegates to `propose_buy`. -/
def AutoBuyController.procesar_token (env : BuyEnv) (w3env : W3Env)
    (o : ChainOracle) (now : ℕ) (pair_address token_address : String)
    (symbol name : Option String) (price_native : ℚ)
    (wbnb_service account : String) (st : BotState) :
    Except PyErr (ProposeResult × BotState) :=
  if env.first_real_buy && AutoBuyController.first_buy_already_done st then
    .ok (.rejected "FIRST_BUY_FUSE_BLOCKED", st)
  else
    let amount_bnb_wei :=
      AutoBuyController.apply_test_cap_wei env env.test_max_spend_wei
    AutoBuyController.propose_buy env w3env o now pair_address token_address
      symbol name amount_bnb_wei price_native price_native 0 0
      wbnb_service account st

-- ======================================================================
-- Buy receipt reconciliation  (autobuy_controller.await_and_record_buy_receipt)
-- ======================================================================

/-- One receipt log entry, with the event decoding already applied:
`is_transfer_topic` is `topics[0] == keccak("Transfer(address,address,uint256)")`,
`to_addr` the address taken from `topics[2]`, `data_value` the raw amount
from `data`. -/
structure TransferLog where
  address : String
  is_transfer_topic : Bool
  to_addr : String
  data_value : ℕ
deriving Repr, DecidableEq

/-- A mined-transaction receipt plus the originating transaction's fields
used by the reconciliation (`gasUsed`, `gasPrice`, `value`). -/
structure Receipt where
  logs : List TransferLog
  gas_used : ℕ
  tx_gas_price : Option ℕ
  tx_value : ℕ
deriving Repr, DecidableEq

/-- The log scan inside `await_and_record_buy_receipt`: first Transfer event
of the bought token whose recipient is the wallet; its raw value converted
to human units. -/
def AutoBuyController.find_transfer_amount (token_addr wallet : String)
    (token_decimals : ℕ) : List TransferLog → Option ℚ
  | [] => none
  | l :: rest =>
      if l.address = token_addr ∧ l.is_transfer_topic = true ∧ l.to_addr = wallet then
        some (qOfNat l.data_value / 10 ^ token_decimals)
      else
        AutoBuyController.find_transfer_amount token_addr wallet token_decimals rest

/-- Result dict of `await_and_record_buy_receipt`. -/
structure ReceiptResult where
  ok : Bool
  reason : Option String
  history_id : Option ℕ
  buy_real_price_bnb : Option ℚ
  buy_amount_tokens : Option ℚ
deriving Repr, DecidableEq

/-- `AutoBuyController.await_and_record_buy_receipt`: reconcile the real
fill from the receipt's Transfer logs, compute the gas-inclusive real unit
price, persist it in the trade ledger, and — only when `FIRST_REAL_BUY` is
enabled and this was not a dry run — trip the first-buy fuse by writing
`first_buy_done = "1"` into `meta`.  Failure paths (no matching Transfer,
no linked `history_id`) return `ok = False` and leave all state untouched. -/
def AutoBuyController.await_and_record_buy_receipt (env : BuyEnv)
    (receipt : Receipt) (pair_address token_address wallet : String)
    (token_decimals : ℕ) (st : BotState) : ReceiptResult × BotState :=
  match AutoBuyController.find_transfer_amount token_address wallet
      token_decimals receipt.logs with
  | none =>
      ({ ok := false
         reason := some "No se pudo determinar la cantidad real recibida (Transfer no encontrado)."
         history_id := none, buy_real_price_bnb := none
         buy_amount_tokens := none }, st)
  | some amount_received_tokens =>
      if amount_received_tokens ≤ 0 then
        ({ ok := false
           reason := some "No se pudo determinar la cantidad real recibida (Transfer no encontrado)."
           history_id := none, buy_real_price_bnb := none
           buy_amount_tokens := none }, st)
      else
        let gas_used := receipt.gas_used
        let gas_price := receipt.tx_gas_price.getD 0
        let total_bnb_spent :=
          qOfNat (receipt.tx_value + gas_used * gas_price) / 10 ^ 18
        let buy_real_price_bnb := total_bnb_spent / amount_received_tokens
        match MonitorRepository.get_history_id pair_address st.monitor with
        | none =>
            ({ ok := false, reason := some "history_id no encontrado en monitor"
               history_id := none, buy_real_price_bnb := none
               buy_amount_tokens := none }, st)
        | some history_id =>
            if history_id = 0 then
              ({ ok := false, reason := some "history_id no encontrado en monitor"
                 history_id := none, buy_real_price_bnb := none
                 buy_amount_tokens := none }, st)
            else
              let hdb' := HistoryRepository.set_buy_final_result history_id
                buy_real_price_bnb amount_received_tokens st.history
              let meta' :=
                if env.first_real_buy && !env.dry_run then
                  MetaRepository.set st.meta "first_buy_done" "1"
                else st.meta
              ({ ok := true, reason := none, history_id := some history_id
                 buy_real_price_bnb := some buy_real_price_bnb
                 buy_amount_tokens := some amount_received_tokens },
               { st with history := hdb', meta := meta' })

-- ======================================================================
-- Concrete fixtures used by evaluation theorems and witnesses
-- ======================================================================

/-- Exit-policy configuration with the source's default percentages
(`TAKE_PROFIT_PCT = 5`, `TRAILING_GAP_PCT = 3`, `STOP_LOSS_PCT = 7`). -/
def trailCfgDefault : TrailCfg :=
  { take_profit_pct := 5, trailing_gap_pct := 3, stop_loss_pct := 7 }

/-- Web3 configuration for the C1 end-to-end scenario: legacy gas with a
25 gwei override, dry-run with a 400000 default gas limit, zero slippage. -/
def c1W3Env : W3Env :=
  { gas_price_wei_override := 25000000000
    priority_fee_wei := 1500000000
    max_fee_multiplier := 2
    gas_limit_multiplier := 6/5
    default_swap_gas_limit := 400000
    dry_run := true
    skip_gas_est_in_dry := true
    default_slippage := 0
    has_account := true }

/-- Chain oracle for the C1 scenario: the pool exists, the router quotes
1000000 raw units (= 1000 human units at 3 decimals) for the spend. -/
def c1Chain : ChainOracle :=
  { gas_mode := .legacy
    latest_base_fee := .ok none
    gas_price_rpc := .ok 25000000000
    max_priority_fee_rpc := .error ()
    factory_available := true
    get_pair_nonzero := fun _ _ => .ok true
    router_amounts_out := fun _ _ => .ok [1000000000000000, 1000000]
    estimate_gas := fun _ => .error ()
    estimate_gas_relaxed := .error ()
    nonce := 0
    chain_id := 56
    token_decimals := fun _ => 3
    prefill_gasPrice := none
    prefill_maxFeePerGas := none
    prefill_maxPriorityFeePerGas := none }

/-- Buy-pipeline configuration for the C1 scenario: threshold 2 %, fee cap
0.02 BNB, fuse disabled. -/
def c1BuyEnv : BuyEnv :=
  { first_real_buy := false
    dry_run := true
    test_max_spend_wei := 10 ^ 15
    pnl_threshold_percent := 2
    max_fee_bnb := 1/50
    wbnb_address := some "WBNB" }

/-- Empty database state. -/
def emptyState : BotState :=
  { meta := [], actions := [], history := { rows := [], next_id := 1 }, monitor := [] }

/-- An `acciones` table holding one pair in the terminal state `cancelada`
with a notification marker set. -/
def c8Cancelled : ActionStore :=
  [("PAIR", { tipo := "compra", estado := "cancelada", timestamp := 7, notified_at := some 9 })]

/-- Chain oracle whose factory reports the pair as missing and whose router
reverts — the C6 failure fixtures. -/
def c6OracleNoPool : ChainOracle :=
  { gas_mode := .legacy
    latest_base_fee := .ok none
    gas_price_rpc := .error ()
    max_priority_fee_rpc := .error ()
    factory_available := true
    get_pair_nonzero := fun _ _ => .ok false
    router_amounts_out := fun _ _ => .error ()
    estimate_gas := fun _ => .error ()
    estimate_gas_relaxed := .error ()
    nonce := 0
    chain_id := 0
    token_decimals := fun _ => 18
    prefill_gasPrice := none
    prefill_maxFeePerGas := none
    prefill_maxPriorityFeePerGas := none }

/-- Chain oracle whose pools exist but whose router simulation reverts. -/
def c6OracleRevert : ChainOracle :=
  { c6OracleNoPool with get_pair_nonzero := fun _ _ => .ok true }

/-- Buy-pipeline configuration with the first-real-buy fuse enabled and
dry-run off (a real rollout), for the C7 scenarios. -/
def c7Env : BuyEnv :=
  { first_real_buy := true
    dry_run := false
    test_max_spend_wei := 10 ^ 15
    pnl_threshold_percent := 2
    max_fee_bnb := 1/50
    wbnb_address := some "WBNB" }

/-- Database state in which the fuse has already been tripped. -/
def c7DoneState : BotState :=
  { meta := [("first_buy_done", "1")], actions := []
    history := { rows := [], next_id := 1 }, monitor := [] }

/-- Database state with an open ledger row linked to pair `PAIR`, fuse not
yet tripped. -/
def c7ReadyState : BotState :=
  { meta := [], actions := []
    history :=
      { rows := [(1,
          { pair_address := "PAIR", token_address := "TOKEN"
            symbol := none, name := none
            buy_entry_price := some (1/1000), buy_price_with_fees := some (1/1000)
            buy_real_price := none, buy_amount := none, buy_date := some 0
            sell_entry_price := none, sell_price_with_fees := none
            sell_real_price := none, sell_amount := none, sell_date := none
            pnl := none, bnb_amount := none })]
        next_id := 2 }
    monitor := [("PAIR", some 1)] }

/-- A receipt whose only log is a Transfer of 1000 raw token units to the
wallet. -/
def c7Receipt : Receipt :=
  { logs := [{ address := "TOKEN", is_transfer_topic := true
               to_addr := "WALLET", data_value := 1000 }]
    gas_used := 21000, tx_gas_price := some 1000000000, tx_value := 10 ^ 15 }

/-- Truthiness of `_legacy_gas_price`'s result as Python's `if gas_price:`
sees it (`None` and `0` are falsy). -/
def legacy_gas_price_truthy (env : W3Env) (o : ChainOracle) : Prop :=
  match Web3Service.legacy_gas_price env o with
  | some v => v ≠ 0
  | none => False

/-- The exactly-one-fee-model shape of a built transaction: 1559 mode has
both `maxFeePerGas` and `maxPriorityFeePerGas` and no `gasPrice`; legacy
mode has neither 1559 field and carries `gasPrice` exactly when the legacy
gas price was obtainable and truthy. -/
def feeFieldsExclusive (mode : GasMode) (env : W3Env) (o : ChainOracle) (tx : Tx) : Prop :=
  match mode with
  | .eip1559 =>
      tx.maxFeePerGas.isSome = true ∧ tx.maxPriorityFeePerGas.isSome = true
        ∧ tx.gasPrice = none
  | .legacy =>
      tx.maxFeePerGas = none ∧ tx.maxPriorityFeePerGas = none
        ∧ (tx.gasPrice.isSome = true ↔ legacy_gas_price_truthy env o)

/-- The transaction `build_swap_exact_eth_for_tokens` produces in the C1/C9
fixture environment (legacy mode, 25 gwei override, dry-run gas limit). -/
def c9Tx : Tx :=
  { tx_from := "ACCT", value := 10, nonce := 0, chainId := 56
    txType := some 0, gasPrice := some 25000000000
    maxFeePerGas := none, maxPriorityFeePerGas := none
    accessList := none, gas := some 400000 }

/-- The transaction built for the C10 witness (spend clamped to the cap). -/
def c10Tx : Tx := { c9Tx with value := 10 ^ 15 }

/-- The database state after the C10 witness buy opened its ledger row. -/
def c10State : BotState :=
  { meta := [], actions := []
    history :=
      { rows := [(1,
          { pair_address := "PAIR", token_address := "TOKEN"
            symbol := none, name := none
            buy_entry_price := some (1/1000)
            buy_price_with_fees := some (101/100000)
            buy_real_price := none, buy_amount := none, buy_date := some 0
            sell_entry_price := none, sell_price_with_fees := none
            sell_real_price := none, sell_amount := none, sell_date := none
            pnl := none, bnb_amount := none })]
        next_id := 2 }
    monitor := [("PAIR", some 1)] }

-- ======================================================================
-- Helper lemmas
-- ======================================================================

theorem alistSet_lookup_self {κ α : Type} [DecidableEq κ]
    (s : List (κ × α)) (k : κ) (v : α) :
    (alistSet s k v).lookup k = some v := by
  induction s with
  | nil => simp [alistSet, List.lookup]
  | cons hd tl ih =>
      obtain ⟨k', v'⟩ := hd
      by_cases h : k' = k
      · subst h; simp [alistSet, List.lookup]
      · simp [alistSet, h, List.lookup, ih, beq_false_of_ne (Ne.symm h)]

theorem alistUpdate_lookup_self {κ α : Type} [DecidableEq κ]
    (s : List (κ × α)) (k : κ) (f : α → α) :
    (alistUpdate s k f).lookup k = (s.lookup k).map f := by
  induction s with
  | nil => simp [alistUpdate, List.lookup]
  | cons hd tl ih =>
      obtain ⟨k', v'⟩ := hd
      by_cases h : k' = k
      · subst h; simp [alistUpdate, List.lookup]
      · simp [alistUpdate, h, List.lookup, ih, beq_false_of_ne (Ne.symm h)]

theorem alistUpdate_of_lookup_none {κ α : Type} [DecidableEq κ]
    (s : List (κ × α)) (k : κ) (f : α → α) (h : s.lookup k = none) :
    alistUpdate s k f = s := by
  induction s with
  | nil => simp [alistUpdate]
  | cons hd tl ih =>
      obtain ⟨k', v'⟩ := hd
      by_cases hk : k' = k
      · subst hk; simp [List.lookup] at h
      · have htl : tl.lookup k = none := by
          simpa [List.lookup, beq_false_of_ne (Ne.symm hk)] using h
        simp [alistUpdate, hk, ih htl]

-- ======================================================================
-- C8 — Action state machine
-- ======================================================================

/-- C8 counterexample: the claim says approve/cancel never fire from a
terminal state, but `autorizar_accion` is an unconditional UPDATE: applied
to a pair in the terminal state `cancelada` it moves it to `aprobada`. -/
theorem C8_approve_fires_from_terminal :
    ActionRepository.obtener_estado "PAIR" c8Cancelled = some "cancelada"
    ∧ ActionRepository.obtener_estado "PAIR"
        (ActionRepository.autorizar_accion "PAIR" c8Cancelled) = some "aprobada" := by
  constructor <;> decide

/-- C8 (amended): a `registrar` call resets any pair — fresh or existing,
terminal included — to `pendiente` and clears `notified_at`; `pending` may
move to `aprobada` or `cancelada`; but `autorizar_accion`/`cancelar_accion`
are unconditional updates that fire from every state of an existing row,
terminal states included — only the absence of the row makes them no-ops.
The one-way-transition discipline is not enforced by the repository. -/
theorem C8_action_state_machine (s : ActionStore) (pair tipo : String) (now : ℕ) :
    ((ActionRepository.registrar_accion now pair tipo s).lookup pair
        = some { tipo := tipo, estado := "pendiente", timestamp := now, notified_at := none })
    ∧ (s.lookup pair = none →
        ActionRepository.autorizar_accion pair s = s
        ∧ ActionRepository.cancelar_accion pair s = s)
    ∧ (∀ a : Accion, s.lookup pair = some a →
        (ActionRepository.autorizar_accion pair s).lookup pair
            = some { a with estado := "aprobada" }
        ∧ (ActionRepository.cancelar_accion pair s).lookup pair
            = some { a with estado := "cancelada" }) := by
  refine ⟨alistSet_lookup_self .., ?_, ?_⟩
  · intro h
    exact ⟨alistUpdate_of_lookup_none _ _ _ h, alistUpdate_of_lookup_none _ _ _ h⟩
  · intro a ha
    constructor <;>
      simp [ActionRepository.autorizar_accion, ActionRepository.cancelar_accion,
        alistUpdate_lookup_self, ha]

/-- C8 witness: the amended theorem applied to the concrete `cancelada`
store — re-registering resets it to `pendiente` with `notified_at` cleared,
and `autorizar_accion` (wrongly, per the original claim) flips the terminal
row to `aprobada`. -/
theorem C8_action_state_machine_witness :
    (ActionRepository.registrar_accion 3 "PAIR" "compra" c8Cancelled).lookup "PAIR"
      = some { tipo := "compra", estado := "pendiente", timestamp := 3, notified_at := none }
    ∧ (ActionRepository.autorizar_accion "PAIR" c8Cancelled).lookup "PAIR"
      = some { tipo := "compra", estado := "aprobada", timestamp := 7, notified_at := some 9 } :=
  ⟨(C8_action_state_machine c8Cancelled "PAIR" "compra" 3).1,
   ((C8_action_state_machine c8Cancelled "PAIR" "compra" 3).2.2
      { tipo := "compra", estado := "cancelada", timestamp := 7, notified_at := some 9 }
      (by decide)).1⟩

-- ======================================================================
-- C2 — Sell finalization requires a recorded real buy
-- ======================================================================

/-- C2: if the pair has no linked trade-ledger entry (no `history_id`, or a
falsy 0 id), or the linked entry is missing or has a null `buy_real_price`,
then both sell-finalization entry points (`AutoBuyController.finalize_sell`
and `AutoSellController.record_sell_result`) return `ok = False` with a
reason and leave both stores untouched — no sell field is ever written
before `buy_real_price` is non-null. -/
theorem C2_sell_finalize_requires_real_buy (now : ℕ) (pair : String)
    (sep spwf : Option ℚ) (srp samt bnb : ℚ) (ms : MonitorStore) (hs : HistoryDB)
    (h : MonitorRepository.get_history_id pair ms = none
       ∨ MonitorRepository.get_history_id pair ms = some 0
       ∨ ∃ hid, MonitorRepository.get_history_id pair ms = some hid
           ∧ (HistoryRepository.get_by_id hid hs).bind (·.buy_real_price) = none) :
    ((AutoBuyController.finalize_sell now pair sep spwf srp samt bnb ms hs).1.ok = false
     ∧ (AutoBuyController.finalize_sell now pair sep spwf srp samt bnb ms hs).1.reason.isSome = true
     ∧ (AutoBuyController.finalize_sell now pair sep spwf srp samt bnb ms hs).2.1 = ms
     ∧ (AutoBuyController.finalize_sell now pair sep spwf srp samt bnb ms hs).2.2 = hs)
    ∧ ((AutoSellController.record_sell_result now pair sep spwf srp samt bnb ms hs).1.ok = false
     ∧ (AutoSellController.record_sell_result now pair sep spwf srp samt bnb ms hs).1.reason.isSome = true
     ∧ (AutoSellController.record_sell_result now pair sep spwf srp samt bnb ms hs).2.1 = ms
     ∧ (AutoSellController.record_sell_result now pair sep spwf srp samt bnb ms hs).2.2 = hs) := by
  rcases h with h | h | ⟨hid, hg, hb⟩
  · simp [AutoBuyController.finalize_sell, AutoSellController.record_sell_result, h]
  · simp [AutoBuyController.finalize_sell, AutoSellController.record_sell_result, h]
  · by_cases h0 : hid = 0 <;>
      simp [AutoBuyController.finalize_sell, AutoSellController.record_sell_result,
        hg, hb, h0]

/-- C2 witness: the theorem at an empty monitor store (no linked entry). -/
theorem C2_sell_finalize_requires_real_buy_witness :
    (AutoBuyController.finalize_sell 0 "PAIR" none none 1 1 1 [] ⟨[], 1⟩).1.ok = false
    ∧ (AutoSellController.record_sell_result 0 "PAIR" none none 1 1 1 [] ⟨[], 1⟩).1.ok = false :=
  ⟨(C2_sell_finalize_requires_real_buy 0 "PAIR" none none 1 1 1 [] ⟨[], 1⟩
      (Or.inl rfl)).1.1,
   (C2_sell_finalize_requires_real_buy 0 "PAIR" none none 1 1 1 [] ⟨[], 1⟩
      (Or.inl rfl)).2.1⟩

-- ======================================================================
-- C3 — Aggregate two-stage PnL
-- ======================================================================

attribute [local semireducible] Rat.inv Rat.mul Rat.add Rat.sub Rat.ofScientific in
set_option maxRecDepth 100000 in
/-- C3 counterexample: the claim quantifies over every `buyReal > 0`, but
the worker's formula clamps the denominator at `1e-18`
(`max(buy_real, 1e-18)`), so for `buyReal = 1e-19` (two fills of 1 unit,
0 proceeds each) the aggregate written on close is −20 while the claim's
weighted per-fill combination is −200. -/
theorem C3_agg_pnl_counterexample :
    (0 : ℚ) < 1/10 ^ 19
    ∧ MonitorOrchestrator.close_pnl_total (1/10 ^ 19) (1 + 1) (0 + 0)
        ≠ specPerFillPnl (1/10 ^ 19) 1 0 + specPerFillPnl (1/10 ^ 19) 1 0
    ∧ MonitorOrchestrator.close_pnl_total (1/10 ^ 19) (1 + 1) (0 + 0) = -20
    ∧ specPerFillPnl (1/10 ^ 19) 1 0 + specPerFillPnl (1/10 ^ 19) 1 0 = -200 := by
  refine ⟨?_, ?_, ?_, ?_⟩ <;> decide

attribute [local semireducible] Rat.inv Rat.mul Rat.add Rat.sub Rat.ofScientific in
set_option maxRecDepth 100000 in
/-- C3 (amended): for a real buy price of at least the `1e-18` clamp, the
aggregate PnL the monitor worker writes on close from the cumulative totals
equals the sum of the fills' per-fill PnLs
`((proceeds_i/units_i − buyReal)/buyReal) × units_i × 100` — and it is not
the simple average of the two stage PnLs (e.g. fills (1 unit, 2 BNB) and
(3 units, 3 BNB) at `buyReal = 1` give aggregate 100 but simple average 50). -/
theorem C3_agg_pnl_weighted (b u1 p1 u2 p2 : ℚ)
    (hb : EPS18 ≤ b) (h1 : 0 < u1) (h2 : 0 < u2) :
    MonitorOrchestrator.close_pnl_total b (u1 + u2) (p1 + p2)
      = specPerFillPnl b u1 p1 + specPerFillPnl b u2 p2
    ∧ MonitorOrchestrator.close_pnl_total 1 (1 + 3) (2 + 3)
        ≠ (specPerFillPnl 1 1 2 + specPerFillPnl 1 3 3) / 2 := by
  constructor
  · have hb0 : (0 : ℚ) < b := lt_of_lt_of_le (by norm_num [EPS18]) hb
    have hmax : max b EPS18 = b := max_eq_left hb
    have hbne : b ≠ 0 := ne_of_gt hb0
    have hu1 : u1 ≠ 0 := ne_of_gt h1
    have hu2 : u2 ≠ 0 := ne_of_gt h2
    have hu : u1 + u2 ≠ 0 := by positivity
    unfold MonitorOrchestrator.close_pnl_total specPerFillPnl
    rw [hmax]
    field_simp
    ring
  · decide

/-- C3 witness: the amended identity evaluated at
`buyReal = 1`, fills (1 unit, 2 BNB) and (3 units, 3 BNB). -/
theorem C3_agg_pnl_weighted_witness :
    EPS18 ≤ (1 : ℚ) ∧ (0 : ℚ) < 1
    ∧ MonitorOrchestrator.close_pnl_total 1 (1 + 3) (2 + 3)
        = specPerFillPnl 1 1 2 + specPerFillPnl 1 3 3 :=
  ⟨by norm_num [EPS18], by norm_num,
   (C3_agg_pnl_weighted 1 1 2 3 3 (by norm_num [EPS18]) one_pos (by norm_num)).1⟩

-- ======================================================================
-- C4 — Stop-loss boundary (binary64 model)
-- ======================================================================

attribute [local semireducible] Rat.inv Rat.mul Rat.add Rat.sub Rat.ofScientific in
set_option maxRecDepth 100000 in
/-- C4: with `buyReal = 1.0` and `stopLossPct = 7`, under Python float
semantics (every operation rounded to binary64 by `fl64`) the stop level
`1.0 × (1 − 7/100.0)` is the double `8376695306909122/2^53`, strictly below
the double `0.93 = 8376695306909123/2^53`: a single tick at `0.92` emits
`SELL`/`STOP_LOSS`, while a tick at `0.93` does not (it holds). -/
theorem C4_stop_loss_boundary :
    (MonitorOrchestrator.update_trailing fl64 trailCfgDefault 1 (fl64 (92/100)) none).1
      = { action := "SELL", reason := "STOP_LOSS" }
    ∧ (MonitorOrchestrator.update_trailing fl64 trailCfgDefault 1 (fl64 (93/100)) none).1
      = { action := "HOLD", reason := "NONE" }
    ∧ (MonitorOrchestrator.init_trailing fl64 trailCfgDefault 1).stop_loss
      = 8376695306909122 / 9007199254740992
    ∧ fl64 (93/100) = 8376695306909123 / 9007199254740992 := by
  refine ⟨?_, ?_, ?_, ?_⟩ <;> decide

-- ======================================================================
-- C5 — Trailing sequence [1.00, 1.06, 1.10, 1.07]
-- ======================================================================

attribute [local semireducible] Rat.inv Rat.mul Rat.add Rat.sub Rat.ofScientific in
set_option maxRecDepth 100000 in
/-- C5 counterexample: feeding `[1.00, 1.06, 1.10, 1.07]` into the exit
policy (exact arithmetic), the final tick 1.07 does **not** produce the
claimed `SELL`/`TRAILING_HIT` — 1.07 is above the trailing stop 1.067. -/
theorem C5_final_tick_no_trailing_hit :
    (let s1 := MonitorOrchestrator.update_trailing id trailCfgDefault 1 1 none
     let s2 := MonitorOrchestrator.update_trailing id trailCfgDefault 1 (106/100) (some s1.2)
     let s3 := MonitorOrchestrator.update_trailing id trailCfgDefault 1 (11/10) (some s2.2)
     let s4 := MonitorOrchestrator.update_trailing id trailCfgDefault 1 (107/100) (some s3.2)
     s4.1 ≠ { action := "SELL", reason := "TRAILING_HIT" }) := by
  decide

attribute [local semireducible] Rat.inv Rat.mul Rat.add Rat.sub Rat.ofScientific in
set_option maxRecDepth 100000 in
/-- C5 (amended): the path `[1.00, 1.06, 1.10, 1.07]` arms the trailing stop
at the 1.06 tick, ratchets `trailing_stop` to `1.10 × 0.97 = 1.067` on the
new peak 1.10 — but the final tick 1.07 lies **above** 1.067, so the policy
holds rather than selling; a tick at or below 1.067 (e.g. 1.06) does emit
`SELL`/`TRAILING_HIT`.  The binary64 (Python float) model agrees with every
one of these decisions. -/
theorem C5_trailing_sequence :
    (let s1 := MonitorOrchestrator.update_trailing id trailCfgDefault 1 1 none
     let s2 := MonitorOrchestrator.update_trailing id trailCfgDefault 1 (106/100) (some s1.2)
     let s3 := MonitorOrchestrator.update_trailing id trailCfgDefault 1 (11/10) (some s2.2)
     let s4 := MonitorOrchestrator.update_trailing id trailCfgDefault 1 (107/100) (some s3.2)
     s1.1 = { action := "HOLD", reason := "NONE" }
     ∧ s2.1 = { action := "HOLD", reason := "ARMED_TRAILING" }
     ∧ s2.2.armed = true ∧ s2.2.peak = 106/100
     ∧ s3.1 = { action := "HOLD", reason := "NEW_PEAK" }
     ∧ s3.2.peak = 11/10 ∧ s3.2.trailing_stop = 1067/1000
     ∧ s4.1 = { action := "HOLD", reason := "NONE" }
     ∧ (MonitorOrchestrator.update_trailing id trailCfgDefault 1 (106/100) (some s3.2)).1
         = { action := "SELL", reason := "TRAILING_HIT" })
    ∧ (let f1 := MonitorOrchestrator.update_trailing fl64 trailCfgDefault 1 1 none
       let f2 := MonitorOrchestrator.update_trailing fl64 trailCfgDefault 1 (fl64 (106/100)) (some f1.2)
       let f3 := MonitorOrchestrator.update_trailing fl64 trailCfgDefault 1 (fl64 (11/10)) (some f2.2)
       let f4 := MonitorOrchestrator.update_trailing fl64 trailCfgDefault 1 (fl64 (107/100)) (some f3.2)
       f2.1 = { action := "HOLD", reason := "ARMED_TRAILING" }
       ∧ f3.1 = { action := "HOLD", reason := "NEW_PEAK" }
       ∧ f4.1 = { action := "HOLD", reason := "NONE" }
       ∧ (MonitorOrchestrator.update_trailing fl64 trailCfgDefault 1 (fl64 (106/100)) (some f3.2)).1
           = { action := "SELL", reason := "TRAILING_HIT" }) := by
  constructor <;> decide

-- ======================================================================
-- C6 — Quotes fail closed
-- ======================================================================

theorem getLast?_replicate_zero (n : ℕ) :
    (List.replicate n (0 : ℤ)).getLast? = if n = 0 then none else some 0 := by
  induction n with
  | zero => simp
  | succ m ih =>
      cases m with
      | zero => simp [List.replicate]
      | succ k =>
          rw [List.replicate_succ, List.replicate_succ, List.getLast?_cons_cons,
            ← List.replicate_succ]
          simpa using ih

theorem get_amount_out_min_zero_of_replicate (env : W3Env) (o : ChainOracle)
    (amount_in : ℤ) (path : List String) (slip : Option ℚ)
    (h : Web3Service.get_amounts_out o amount_in path
          = List.replicate path.length 0) :
    Web3Service.get_amount_out_min env o amount_in path slip = 0 := by
  simp only [Web3Service.get_amount_out_min, h, getLast?_replicate_zero]
  rcases path with _ | ⟨a, rest⟩ <;> simp

theorem adjacent_pairs_ok_false_of_missing (o : ChainOracle)
    (pre post : List String) (a b : String)
    (hpe : Web3Service.pair_exists o a b = false) :
    Web3Service.adjacent_pairs_ok o (pre ++ a :: b :: post) = false := by
  induction pre with
  | nil => simp [Web3Service.adjacent_pairs_ok, hpe]
  | cons x xs ih =>
      cases hxs : xs ++ a :: b :: post with
      | nil => simp at hxs
      | cons r rs =>
          have hstep : Web3Service.adjacent_pairs_ok o (x :: r :: rs)
              = (Web3Service.pair_exists o x r
                  && Web3Service.adjacent_pairs_ok o (r :: rs)) := rfl
          rw [List.cons_append, hxs, hstep, ← hxs, ih, Bool.and_false]

/-- C6: `get_amount_out_min` fails closed with exactly 0 — (i) for a
non-positive `amount_in`; (ii) when the factory is available and reports
some adjacent pair of the path as having no pool; (iii) when the router
simulation reverts (raises). -/
theorem C6_quote_fails_closed (env : W3Env) (o : ChainOracle) (amount_in : ℤ)
    (path : List String) (slip : Option ℚ) :
    (amount_in ≤ 0 → Web3Service.get_amount_out_min env o amount_in path slip = 0)
    ∧ (∀ pre post a b, path = pre ++ a :: b :: post →
        o.factory_available = true → o.get_pair_nonzero a b = .ok false →
        Web3Service.get_amount_out_min env o amount_in path slip = 0)
    ∧ (o.router_amounts_out amount_in path = .error () →
        Web3Service.get_amount_out_min env o amount_in path slip = 0) := by
  refine ⟨?_, ?_, ?_⟩
  · intro hle
    exact get_amount_out_min_zero_of_replicate env o amount_in path slip
      (by simp [Web3Service.get_amounts_out, hle])
  · intro pre post a b hpath hfac hpair
    have hpe : Web3Service.pair_exists o a b = false := by
      simp [Web3Service.pair_exists, hfac, hpair]
    have hppe : Web3Service.path_pairs_exist o path = false := by
      subst hpath
      simp [Web3Service.path_pairs_exist,
        adjacent_pairs_ok_false_of_missing o pre post a b hpe]
    refine get_amount_out_min_zero_of_replicate env o amount_in path slip ?_
    by_cases hle : amount_in ≤ 0 <;>
      simp [Web3Service.get_amounts_out, hle, hppe]
  · intro hrouter
    refine get_amount_out_min_zero_of_replicate env o amount_in path slip ?_
    by_cases hle : amount_in ≤ 0
    · simp [Web3Service.get_amounts_out, hle]
    · by_cases hppe : Web3Service.path_pairs_exist o path = false <;>
        simp [Web3Service.get_amounts_out, hle, hppe, hrouter]

/-- C6 witness: the three fail-closed paths at concrete inputs — zero
amount, missing pool, router revert. -/
theorem C6_quote_fails_closed_witness :
    Web3Service.get_amount_out_min c1W3Env c6OracleRevert 0 ["A", "B"] none = 0
    ∧ Web3Service.get_amount_out_min c1W3Env c6OracleNoPool 5 ["A", "B"] none = 0
    ∧ Web3Service.get_amount_out_min c1W3Env c6OracleRevert 5 ["A", "B"] none = 0 :=
  ⟨(C6_quote_fails_closed c1W3Env c6OracleRevert 0 ["A", "B"] none).1 (by decide),
   (C6_quote_fails_closed c1W3Env c6OracleNoPool 5 ["A", "B"] none).2.1
      [] [] "A" "B" rfl rfl rfl,
   (C6_quote_fails_closed c1W3Env c6OracleRevert 5 ["A", "B"] none).2.2 rfl⟩

-- ======================================================================
-- C7 — First-real-buy fuse
-- ======================================================================

/-- C7: with the fuse enabled (`FIRST_REAL_BUY`) and already tripped, each
of the three buy entry points — `propose_buy`, `confirm_pending_buy`,
`procesar_token` — returns the distinguishable rejection
`FIRST_BUY_FUSE_BLOCKED` at its very start with the database state
unchanged (no action registered, no ledger entry opened); and the
receipt-recording step leaves the fuse tripped exactly when the
reconciliation succeeded on a real (non-dry-run) fill, or it was already
tripped before. -/
theorem C7_first_buy_fuse (env : BuyEnv) (w3env : W3Env) (o : ChainOracle)
    (hfr : env.first_real_buy = true) :
    (∀ now pair token symbol name amount p c bf tf wbnb acct (st : BotState),
        AutoBuyController.first_buy_already_done st = true →
        AutoBuyController.propose_buy env w3env o now pair token symbol name
            amount p c bf tf wbnb acct st
          = .ok (.rejected "FIRST_BUY_FUSE_BLOCKED", st))
    ∧ (∀ now pair token symbol name amount p c bf tf wbnb acct (st : BotState),
        AutoBuyController.first_buy_already_done st = true →
        AutoBuyController.confirm_pending_buy env w3env o now pair token symbol
            name amount p c bf tf wbnb acct st
          = .ok (.rejected "FIRST_BUY_FUSE_BLOCKED", st))
    ∧ (∀ now pair token symbol name price wbnb acct (st : BotState),
        AutoBuyController.first_buy_already_done st = true →
        AutoBuyController.procesar_token env w3env o now pair token symbol name
            price wbnb acct st
          = .ok (.rejected "FIRST_BUY_FUSE_BLOCKED", st))
    ∧ (∀ receipt pair token wallet dec (st : BotState),
        ((AutoBuyController.await_and_record_buy_receipt env receipt pair token
            wallet dec st).2.meta.lookup "first_buy_done" = some "1"
          ↔ ((AutoBuyController.await_and_record_buy_receipt env receipt pair
                token wallet dec st).1.ok = true ∧ env.dry_run = false)
            ∨ st.meta.lookup "first_buy_done" = some "1")) := by
  refine ⟨?_, ?_, ?_, ?_⟩
  · intro now pair token symbol name amount p c bf tf wbnb acct st hdone
    simp [AutoBuyController.propose_buy, hfr, hdone]
  · intro now pair token symbol name amount p c bf tf wbnb acct st hdone
    simp [AutoBuyController.confirm_pending_buy, hfr, hdone]
  · intro now pair token symbol name price wbnb acct st hdone
    simp [AutoBuyController.procesar_token, hfr, hdone]
  · intro receipt pair token wallet dec st
    simp only [AutoBuyController.await_and_record_buy_receipt]
    cases hf : AutoBuyController.find_transfer_amount token wallet dec
        receipt.logs with
    | none => simp
    | some amt =>
        by_cases hamt : amt ≤ 0
        · simp [hamt]
        · cases hg : MonitorRepository.get_history_id pair st.monitor with
          | none => simp [hamt, hg]
          | some hid =>
              by_cases h0 : hid = 0
              · simp [hamt, hg, h0]
              · cases hd : env.dry_run with
                | false =>
                    simp [hamt, hg, h0, hfr, hd, MetaRepository.set,
                      alistSet_lookup_self]
                | true => simp [hamt, hg, h0, hfr, hd]

attribute [local semireducible] Rat.inv Rat.mul Rat.add Rat.sub Rat.ofScientific in
set_option maxRecDepth 100000 in
/-- C7 witness: with the fuse enabled and tripped, `propose_buy` is blocked
without touching the state; and a successful real (non-dry-run) receipt
reconciliation from an untripped state leaves the fuse tripped. -/
theorem C7_first_buy_fuse_witness :
    AutoBuyController.propose_buy c7Env c1W3Env c1Chain 0 "PAIR" "TOKEN" none
        none (10 ^ 15) (1/1000) (1/1000) 0 0 "WBNB" "ACCT" c7DoneState
      = .ok (.rejected "FIRST_BUY_FUSE_BLOCKED", c7DoneState)
    ∧ (AutoBuyController.await_and_record_buy_receipt c7Env c7Receipt "PAIR"
        "TOKEN" "WALLET" 3 c7ReadyState).2.meta.lookup "first_buy_done"
      = some "1" :=
  ⟨(C7_first_buy_fuse c7Env c1W3Env c1Chain rfl).1 0 "PAIR" "TOKEN" none none
      (10 ^ 15) (1/1000) (1/1000) 0 0 "WBNB" "ACCT" c7DoneState (by decide),
   ((C7_first_buy_fuse c7Env c1W3Env c1Chain rfl).2.2.2 c7Receipt "PAIR"
      "TOKEN" "WALLET" 3 c7ReadyState).mpr (Or.inl ⟨by decide, rfl⟩)⟩

-- ======================================================================
-- C9 — Exactly one fee model per built transaction
-- ======================================================================

theorem except_bind_eq_ok {α β : Type} (e : Except Unit α)
    (f : α → Except Unit β) (r : β) (h : (e >>= f) = .ok r) :
    ∃ a, e = .ok a ∧ f a = .ok r := by
  cases e with
  | ok a => exact ⟨a, rfl, h⟩
  | error e' => simp [Bind.bind, Except.bind] at h

theorem apply_gas_fields_shape (env : W3Env) (o : ChainOracle) (tx tx' : Tx)
    (h : Web3Service.apply_gas_fields env o tx = .ok tx') :
    feeFieldsExclusive o.gas_mode env o tx' := by
  unfold Web3Service.apply_gas_fields at h
  cases hm : o.gas_mode with
  | eip1559 =>
      rw [hm] at h
      simp only [Bind.bind, Except.bind, pure, Except.pure] at h
      repeat' split at h
      all_goals first
        | (cases h; exact ⟨rfl, rfl, rfl⟩)
        | simp_all
  | legacy =>
      rw [hm] at h
      cases hl : Web3Service.legacy_gas_price env o with
      | none =>
          rw [hl] at h
          simp only [pure, Except.pure, Except.ok.injEq] at h
          subst h
          simp [feeFieldsExclusive, legacy_gas_price_truthy, hl]
      | some gp =>
          rw [hl] at h
          by_cases hz : gp = 0
          · simp only [hz, if_pos rfl, pure, Except.pure, Except.ok.injEq] at h
            subst h
            simp [feeFieldsExclusive, legacy_gas_price_truthy, hl, hz]
          · simp only [if_neg hz, pure, Except.pure, Except.ok.injEq] at h
            subst h
            simp [feeFieldsExclusive, legacy_gas_price_truthy, hl, hz]

theorem feeFieldsExclusive_gas_update (mode : GasMode) (env : W3Env)
    (o : ChainOracle) (tx : Tx) (g : Option ℕ)
    (h : feeFieldsExclusive mode env o tx) :
    feeFieldsExclusive mode env o { tx with gas := g } := by
  cases mode <;> simpa [feeFieldsExclusive] using h


theorem with_gas_limit_shape (mode : GasMode) (env : W3Env) (o : ChainOracle)
    (tx : Tx) (g : ℕ) (h : feeFieldsExclusive mode env o tx) :
    feeFieldsExclusive mode env o (Web3Service.with_gas_limit env tx g) := by
  unfold Web3Service.with_gas_limit
  exact feeFieldsExclusive_gas_update mode env o tx _ h

theorem build_swap_eth_shape (env : W3Env) (o : ChainOracle)
    (amount_in_wei : ℕ) (amount_out_min : ℤ) (token wbnb acct : String) (tx' : Tx)
    (h : Web3Service.build_swap_exact_eth_for_tokens env o amount_in_wei
          amount_out_min token wbnb acct = .ok tx') :
    feeFieldsExclusive o.gas_mode env o tx' := by
  unfold Web3Service.build_swap_exact_eth_for_tokens at h
  by_cases hacct : env.has_account = false
  · rw [if_pos hacct] at h; exact absurd h (by simp)
  · rw [if_neg hacct] at h
    by_cases hpool : Web3Service.path_pairs_exist o [wbnb, token] = false
    · rw [if_pos hpool] at h; exact absurd h (by simp)
    · rw [if_neg hpool] at h
      obtain ⟨tx1, ha, h⟩ := except_bind_eq_ok _ _ _ h
      have hsh := apply_gas_fields_shape env o _ tx1 ha
      by_cases hdry : (env.dry_run && env.skip_gas_est_in_dry) = true
      · rw [if_pos hdry] at h
        simp only [pure, Except.pure, Except.ok.injEq] at h
        subst h
        exact feeFieldsExclusive_gas_update _ env o tx1 _ hsh
      · rw [if_neg hdry] at h
        cases he : o.estimate_gas tx1 with
        | ok g =>
            rw [he] at h
            simp only [pure, Except.pure, Except.ok.injEq] at h
            subst h
            exact with_gas_limit_shape _ env o tx1 g hsh
        | error e =>
            rw [he] at h
            obtain ⟨tx0, _, h⟩ := except_bind_eq_ok _ _ _ h
            cases hr : o.estimate_gas_relaxed with
            | ok g =>
                rw [hr] at h
                simp only [pure, Except.pure, Except.ok.injEq] at h
                subst h
                exact with_gas_limit_shape _ env o tx1 g hsh
            | error e1 => rw [hr] at h; exact absurd h (by simp)

theorem build_approve_shape (env : W3Env) (o : ChainOracle)
    (token spender acct : String) (amount_wei : ℕ) (tx' : Tx)
    (h : Web3Service.build_approve env o token spender acct amount_wei = .ok tx') :
    feeFieldsExclusive o.gas_mode env o tx' := by
  unfold Web3Service.build_approve at h
  by_cases hacct : env.has_account = false
  · rw [if_pos hacct] at h; exact absurd h (by simp)
  · rw [if_neg hacct] at h
    obtain ⟨tx1, ha, h⟩ := except_bind_eq_ok _ _ _ h
    have hsh := apply_gas_fields_shape env o _ tx1 ha
    by_cases hdry : (env.dry_run && env.skip_gas_est_in_dry) = true
    · rw [if_pos hdry] at h
      simp only [pure, Except.pure, Except.ok.injEq] at h
      subst h
      exact feeFieldsExclusive_gas_update _ env o tx1 _ hsh
    · rw [if_neg hdry] at h
      cases he : o.estimate_gas tx1 with
      | ok g =>
          rw [he] at h
          simp only [pure, Except.pure, Except.ok.injEq] at h
          subst h
          exact with_gas_limit_shape _ env o tx1 g hsh
      | error e => rw [he] at h; exact absurd h (by simp)

theorem build_swap_tokens_shape (env : W3Env) (o : ChainOracle)
    (token : String) (amount_in_raw : ℕ) (amount_out_min : ℤ) (acct : String)
    (tx' : Tx)
    (h : Web3Service.build_swap_exact_tokens_for_eth env o token amount_in_raw
          amount_out_min acct = .ok tx') :
    feeFieldsExclusive o.gas_mode env o tx' := by
  unfold Web3Service.build_swap_exact_tokens_for_eth at h
  by_cases hacct : env.has_account = false
  · rw [if_pos hacct] at h; exact absurd h (by simp)
  · rw [if_neg hacct] at h
    obtain ⟨tx1, ha, h⟩ := except_bind_eq_ok _ _ _ h
    have hsh := apply_gas_fields_shape env o _ tx1 ha
    by_cases hdry : (env.dry_run && env.skip_gas_est_in_dry) = true
    · rw [if_pos hdry] at h
      simp only [pure, Except.pure, Except.ok.injEq] at h
      subst h
      exact feeFieldsExclusive_gas_update _ env o tx1 _ hsh
    · rw [if_neg hdry] at h
      cases he : o.estimate_gas tx1 with
      | ok g =>
          rw [he] at h
          simp only [pure, Except.pure, Except.ok.injEq] at h
          subst h
          exact with_gas_limit_shape _ env o tx1 g hsh
      | error e => rw [he] at h; exact absurd h (by simp)

/-- C9: every transaction dict the chain client's builders (buy swap, sell
swap, approve) or `_apply_gas_fields` itself successfully produce carries
the fields of exactly one fee model: in 1559 mode `maxFeePerGas` and
`maxPriorityFeePerGas` are present and `gasPrice` absent; in legacy mode
neither 1559 field is present and `gasPrice` appears exactly when a legacy
gas price was obtainable (and nonzero) — never fields of both models. -/
theorem C9_fee_model_exclusive (env : W3Env) (o : ChainOracle) :
    (∀ tx tx', Web3Service.apply_gas_fields env o tx = .ok tx' →
        feeFieldsExclusive o.gas_mode env o tx')
    ∧ (∀ amount_in_wei amount_out_min token wbnb acct tx',
        Web3Service.build_swap_exact_eth_for_tokens env o amount_in_wei
            amount_out_min token wbnb acct = .ok tx' →
        feeFieldsExclusive o.gas_mode env o tx')
    ∧ (∀ token spender acct amount_wei tx',
        Web3Service.build_approve env o token spender acct amount_wei = .ok tx' →
        feeFieldsExclusive o.gas_mode env o tx')
    ∧ (∀ token amount_in_raw amount_out_min acct tx',
        Web3Service.build_swap_exact_tokens_for_eth env o token amount_in_raw
            amount_out_min acct = .ok tx' →
        feeFieldsExclusive o.gas_mode env o tx')
    ∧ (∀ tx tx', Web3Service.apply_gas_fields env o tx = .ok tx' →
        ¬(tx'.gasPrice.isSome = true ∧ (tx'.maxFeePerGas.isSome = true
            ∨ tx'.maxPriorityFeePerGas.isSome = true))) := by
  refine ⟨?_, ?_, ?_, ?_, ?_⟩
  · intro tx tx' h; exact apply_gas_fields_shape env o tx tx' h
  · intro a b c d e tx' h; exact build_swap_eth_shape env o a b c d e tx' h
  · intro a b c d tx' h; exact build_approve_shape env o a b c d tx' h
  · intro a b c d tx' h; exact build_swap_tokens_shape env o a b c d tx' h
  · intro tx tx' h
    have hsh := apply_gas_fields_shape env o tx tx' h
    cases hm : o.gas_mode with
    | legacy =>
        rw [hm] at hsh
        rintro ⟨-, hmf | hmp⟩
        · rw [hsh.1] at hmf; simp at hmf
        · rw [hsh.2.1] at hmp; simp at hmp
    | eip1559 =>
        rw [hm] at hsh
        rintro ⟨hgp, -⟩
        rw [hsh.2.2] at hgp
        simp at hgp

/-- C9 witness: a concrete legacy-mode dry-run build carries `gasPrice` and
neither 1559 field. -/
theorem C9_fee_model_exclusive_witness :
    Web3Service.build_swap_exact_eth_for_tokens c1W3Env c1Chain 10 5 "TOKEN"
        "WBNB" "ACCT" = .ok c9Tx
    ∧ feeFieldsExclusive c1Chain.gas_mode c1W3Env c1Chain c9Tx :=
  ⟨by rfl,
   (C9_fee_model_exclusive c1W3Env c1Chain).2.1 10 5 "TOKEN" "WBNB" "ACCT" c9Tx
     (by rfl)⟩

-- ======================================================================
-- C10 — Test-cap clamp on every buy
-- ======================================================================

theorem apply_gas_fields_value (env : W3Env) (o : ChainOracle) (tx tx' : Tx)
    (h : Web3Service.apply_gas_fields env o tx = .ok tx') :
    tx'.value = tx.value := by
  unfold Web3Service.apply_gas_fields at h
  cases hm : o.gas_mode with
  | eip1559 =>
      rw [hm] at h
      simp only [Bind.bind, Except.bind, pure, Except.pure] at h
      repeat' split at h
      all_goals first
        | (cases h; rfl)
        | simp_all
  | legacy =>
      rw [hm] at h
      simp only [pure, Except.pure] at h
      repeat' split at h
      all_goals first
        | (cases h; rfl)
        | simp_all

theorem with_gas_limit_value (env : W3Env) (tx : Tx) (g : ℕ) :
    (Web3Service.with_gas_limit env tx g).value = tx.value := rfl

theorem build_swap_eth_value (env : W3Env) (o : ChainOracle)
    (amount_in_wei : ℕ) (amount_out_min : ℤ) (token wbnb acct : String) (tx' : Tx)
    (h : Web3Service.build_swap_exact_eth_for_tokens env o amount_in_wei
          amount_out_min token wbnb acct = .ok tx') :
    tx'.value = amount_in_wei := by
  unfold Web3Service.build_swap_exact_eth_for_tokens at h
  by_cases hacct : env.has_account = false
  · rw [if_pos hacct] at h; exact absurd h (by simp)
  · rw [if_neg hacct] at h
    by_cases hpool : Web3Service.path_pairs_exist o [wbnb, token] = false
    · rw [if_pos hpool] at h; exact absurd h (by simp)
    · rw [if_neg hpool] at h
      obtain ⟨tx1, ha, h⟩ := except_bind_eq_ok _ _ _ h
      have hv1 : tx1.value = amount_in_wei := apply_gas_fields_value env o _ tx1 ha
      by_cases hdry : (env.dry_run && env.skip_gas_est_in_dry) = true
      · rw [if_pos hdry] at h
        simp only [pure, Except.pure, Except.ok.injEq] at h
        subst h
        exact hv1
      · rw [if_neg hdry] at h
        cases he : o.estimate_gas tx1 with
        | ok g =>
            rw [he] at h
            simp only [pure, Except.pure, Except.ok.injEq] at h
            subst h
            exact hv1
        | error e =>
            rw [he] at h
            obtain ⟨tx0, _, h⟩ := except_bind_eq_ok _ _ _ h
            cases hr : o.estimate_gas_relaxed with
            | ok g =>
                rw [hr] at h
                simp only [pure, Except.pure, Except.ok.injEq] at h
                subst h
                exact hv1
            | error e1 => rw [hr] at h; exact absurd h (by simp)

theorem apply_test_cap_wei_eq_min (env : BuyEnv) (a : ℕ) :
    AutoBuyController.apply_test_cap_wei env a = min a env.test_max_spend_wei := by
  unfold AutoBuyController.apply_test_cap_wei
  rw [Nat.min_def]
  split_ifs <;> omega

theorem propose_buy_immediate_value (env : BuyEnv) (w3env : W3Env)
    (o : ChainOracle) (now : ℕ) (pair token : String)
    (symbol name : Option String) (amount : ℕ) (p c bf tf : ℚ)
    (wbnb acct : String) (st : BotState) (hid : ℕ) (tx : Tx) (aom : ℤ)
    (st' : BotState)
    (h : AutoBuyController.propose_buy env w3env o now pair token symbol name
          amount p c bf tf wbnb acct st = .ok (.immediate hid tx aom, st')) :
    tx.value = min amount env.test_max_spend_wei := by
  unfold AutoBuyController.propose_buy at h
  simp only [] at h
  split at h
  · exact absurd h (by simp)
  · split at h
    · exact absurd h (by simp)
    · split at h
      · exact absurd h (by simp)
      · split at h
        · exact absurd h (by simp)
        · rename_i tx1 heqb
          split at h
          · exact absurd h (by simp)
          · simp only [AutoBuyController.start_buy_immediate, Except.ok.injEq,
              Prod.mk.injEq, ProposeResult.immediate.injEq] at h
            obtain ⟨⟨-, htx, -⟩, -⟩ := h
            rw [← htx, build_swap_eth_value _ _ _ _ _ _ _ _ heqb,
              apply_test_cap_wei_eq_min]

theorem confirm_pending_buy_immediate_value (env : BuyEnv) (w3env : W3Env)
    (o : ChainOracle) (now : ℕ) (pair token : String)
    (symbol name : Option String) (amount : ℕ) (p c bf tf : ℚ)
    (wbnb acct : String) (st : BotState) (hid : ℕ) (tx : Tx) (aom : ℤ)
    (st' : BotState)
    (h : AutoBuyController.confirm_pending_buy env w3env o now pair token symbol
          name amount p c bf tf wbnb acct st = .ok (.immediate hid tx aom, st')) :
    tx.value = min amount env.test_max_spend_wei := by
  unfold AutoBuyController.confirm_pending_buy at h
  simp only [] at h
  split at h
  · exact absurd h (by simp)
  · split at h
    · split at h
      · exact absurd h (by simp)
      · split at h
        · exact absurd h (by simp)
        · rename_i tx1 heqb
          simp only [AutoBuyController.start_buy_immediate, Except.ok.injEq,
            Prod.mk.injEq, ProposeResult.immediate.injEq] at h
          obtain ⟨⟨-, htx, -⟩, -⟩ := h
          rw [← htx, build_swap_eth_value _ _ _ _ _ _ _ _ heqb,
            apply_test_cap_wei_eq_min]
    · exact absurd h (by simp)

theorem procesar_token_immediate_value (env : BuyEnv) (w3env : W3Env)
    (o : ChainOracle) (now : ℕ) (pair token : String)
    (symbol name : Option String) (price : ℚ) (wbnb acct : String)
    (st : BotState) (hid : ℕ) (tx : Tx) (aom : ℤ) (st' : BotState)
    (h : AutoBuyController.procesar_token env w3env o now pair token symbol name
          price wbnb acct st = .ok (.immediate hid tx aom, st')) :
    tx.value = env.test_max_spend_wei := by
  unfold AutoBuyController.procesar_token at h
  split at h
  · exact absurd h (by simp)
  · have hv := propose_buy_immediate_value env w3env o now pair token symbol
      name (AutoBuyController.apply_test_cap_wei env env.test_max_spend_wei)
      price price 0 0 wbnb acct st hid tx aom st' h
    rw [apply_test_cap_wei_eq_min] at hv
    simpa using hv

/-- C10: every buy initiated through the controller clamps the spend:
`_apply_test_cap_wei` is exactly `min(amount, TEST_MAX_SPEND_BNB in wei)`,
and whenever `propose_buy` or `confirm_pending_buy` reaches the immediate
path, the built swap transaction's `value` is that clamped amount — never
above the cap; `procesar_token` always spends exactly the cap. -/
theorem C10_test_cap_clamps (env : BuyEnv) (w3env : W3Env) (o : ChainOracle) :
    (∀ a, AutoBuyController.apply_test_cap_wei env a
        = min a env.test_max_spend_wei)
    ∧ (∀ now pair token symbol name amount p c bf tf wbnb acct st hid tx aom st',
        AutoBuyController.propose_buy env w3env o now pair token symbol name
            amount p c bf tf wbnb acct st = .ok (.immediate hid tx aom, st') →
        tx.value = min amount env.test_max_spend_wei
          ∧ tx.value ≤ env.test_max_spend_wei)
    ∧ (∀ now pair token symbol name amount p c bf tf wbnb acct st hid tx aom st',
        AutoBuyController.confirm_pending_buy env w3env o now pair token symbol
            name amount p c bf tf wbnb acct st = .ok (.immediate hid tx aom, st') →
        tx.value = min amount env.test_max_spend_wei
          ∧ tx.value ≤ env.test_max_spend_wei)
    ∧ (∀ now pair token symbol name price wbnb acct st hid tx aom st',
        AutoBuyController.procesar_token env w3env o now pair token symbol name
            price wbnb acct st = .ok (.immediate hid tx aom, st') →
        tx.value = env.test_max_spend_wei) := by
  refine ⟨apply_test_cap_wei_eq_min env, ?_, ?_, ?_⟩
  · intro now pair token symbol name amount p c bf tf wbnb acct st hid tx aom st' h
    have hv := propose_buy_immediate_value env w3env o now pair token symbol
      name amount p c bf tf wbnb acct st hid tx aom st' h
    exact ⟨hv, hv ▸ Nat.min_le_right _ _⟩
  · intro now pair token symbol name amount p c bf tf wbnb acct st hid tx aom st' h
    have hv := confirm_pending_buy_immediate_value env w3env o now pair token
      symbol name amount p c bf tf wbnb acct st hid tx aom st' h
    exact ⟨hv, hv ▸ Nat.min_le_right _ _⟩
  · intro now pair token symbol name price wbnb acct st hid tx aom st' h
    exact procesar_token_immediate_value env w3env o now pair token symbol name
      price wbnb acct st hid tx aom st' h

attribute [local semireducible] Rat.inv Rat.mul Rat.add Rat.sub Rat.ofScientific in
set_option maxRecDepth 100000 in
/-- C10 witness: a requested spend of `2e15` wei (double the cap) reaches
the immediate path with the transaction value clamped to the `1e15` cap. -/
theorem C10_test_cap_clamps_witness :
    AutoBuyController.propose_buy c1BuyEnv c1W3Env c1Chain 0 "PAIR" "TOKEN"
        none none (2 * 10 ^ 15) (1/1000) (1/10000) 0 0 "WBNB" "ACCT" emptyState
      = .ok (.immediate 1 c10Tx 1000000, c10State)
    ∧ c10Tx.value = min (2 * 10 ^ 15) c1BuyEnv.test_max_spend_wei
    ∧ c10Tx.value ≤ c1BuyEnv.test_max_spend_wei :=
  have h : AutoBuyController.propose_buy c1BuyEnv c1W3Env c1Chain 0 "PAIR"
      "TOKEN" none none (2 * 10 ^ 15) (1/1000) (1/10000) 0 0 "WBNB" "ACCT"
      emptyState = .ok (.immediate 1 c10Tx 1000000, c10State) := by decide
  ⟨h,
   ((C10_test_cap_clamps c1BuyEnv c1W3Env c1Chain).2.1 0 "PAIR" "TOKEN" none
      none (2 * 10 ^ 15) (1/1000) (1/10000) 0 0 "WBNB" "ACCT" emptyState 1
      c10Tx 1000000 c10State h).1,
   ((C10_test_cap_clamps c1BuyEnv c1W3Env c1Chain).2.1 0 "PAIR" "TOKEN" none
      none (2 * 10 ^ 15) (1/1000) (1/10000) 0 0 "WBNB" "ACCT" emptyState 1
      c10Tx 1000000 c10State h).2⟩

-- ======================================================================
-- C1 — Gating path of propose_buy
-- ======================================================================

attribute [local semireducible] Rat.inv Rat.mul Rat.add Rat.sub Rat.ofScientific in
set_option maxRecDepth 100000 in
/-- C1: the end-to-end scenario (1000 expected units, 0.01 BNB gas,
`gasPerUnit = 0.00001`, `nativePrice = currentPrice = 0.001`, zero taxes,
threshold 2 %, fee cap 0.02) computes `expectedUnitCost = 0.00101` and
`pnlPercent = 1 < 2`, so the PNL_BELOW_THRESHOLD gate fires — but instead
of registering a pending action and returning a pending-approval dict,
`propose_buy` raises `TypeError`: it calls
`ActionRepository.registrar_accion` with keyword arguments `token_address=`
and `motivo=` that the method signature
`registrar_accion(self, pair_address, tipo)` does not accept.  The call
therefore crashes with nothing registered (the fee stays below the cap, so
the triggering reason would have been PNL_BELOW_THRESHOLD). -/
theorem C1_propose_buy_gating_typeerror :
    AutoBuyController.estimate_fee_bnb 400000 25000000000 = 1/100
    ∧ AutoBuyController.expected_out_tokens c1Chain "TOKEN" 1000000 = 1000
    ∧ AutoBuyController.compute_pnl_percent (101/100000) (1/1000) = 1
    ∧ (1 : ℚ) < c1BuyEnv.pnl_threshold_percent
    ∧ ¬ (c1BuyEnv.max_fee_bnb < 1/100)
    ∧ AutoBuyController.propose_buy c1BuyEnv c1W3Env c1Chain 0 "PAIR" "TOKEN"
        none none (10 ^ 15) (1/1000) (1/1000) 0 0 "WBNB" "ACCT" emptyState
      = .error .typeErrorRegistrarKwargs := by
  refine ⟨?_, ?_, ?_, ?_, ?_, ?_⟩ <;> decide
